import Mathlib

/-!
# PANDA parser: length check, encapsulation bookkeeping, GRE protocol nodes, big parser

Shallow embedding of

* `src/templates/panda/c_def.template.c` (`check_pkt_len`, `panda_encap_layer`,
  `panda_parse_tlv`),
* `src/include/panda/proto_nodes/proto_gre.h` (GRE length and next-protocol operations),
* `src/lib/panda/parsers/parser_big.c` (parse nodes, protocol tables, TLV table, parsers),
* `src/tools/compiler/src/main.cpp` (`parse_file`, `main`).

Integer model (LP64): `size_t` is a natural number below `2 ^ 64`, `ssize_t` an integer in
`[-2 ^ 63, 2 ^ 63)`, `int` an integer in `[-2 ^ 31, 2 ^ 31)`.  A comparison between a `size_t`
and an `ssize_t` converts the signed operand to `size_t` (usual arithmetic conversions); that
conversion is `to_size_t`.
-/

namespace Panda

/-! ## Machine integers -/

/-- Number of values of the type `size_t`. -/
def SIZE_MOD : Nat := 2 ^ 64

/-- Largest value of the type `ssize_t`. -/
def SSIZE_MAX : Nat := 2 ^ 63 - 1

/-- Number of values of the type `int`. -/
def INT_MOD : Nat := 2 ^ 32

/-- The value is representable in `size_t`. -/
def is_size_t (n : Nat) : Prop := n < SIZE_MOD

/-- The value is representable in `ssize_t`. -/
def is_ssize_t (x : Int) : Prop := -(2 : Int) ^ 63 ≤ x ∧ x < (2 : Int) ^ 63

/-- The value is a byte count of an object in memory (a buffer length, a header size): no
object is larger than `SSIZE_MAX` bytes. -/
def is_length (n : Nat) : Prop := n ≤ SSIZE_MAX

instance (n : Nat) : Decidable (is_size_t n) := by unfold is_size_t; infer_instance

instance (n : Nat) : Decidable (is_length n) := by unfold is_length; infer_instance

instance (x : Int) : Decidable (is_ssize_t x) := by unfold is_ssize_t; infer_instance

/-- Conversion of an `ssize_t` to `size_t`: reduction modulo `2 ^ 64`. -/
def to_size_t (x : Int) : Nat := (x % (SIZE_MOD : Int)).toNat

/-- Conversion of a `size_t` to `ssize_t`: the twos-complement reading of the same bits. -/
def to_ssize_t (n : Nat) : Int :=
  if n % SIZE_MOD ≤ SSIZE_MAX then ((n % SIZE_MOD : Nat) : Int)
  else ((n % SIZE_MOD : Nat) : Int) - (SIZE_MOD : Int)

/-- Conversion of an `ssize_t` to `int`, as done by `return` in a function returning `int`. -/
def to_int (x : Int) : Int := (x + 2 ^ 31) % (INT_MOD : Int) - 2 ^ 31

/-! ## Return codes -/

/-- Modelled from the spec: the parser return codes `PANDA_OKAY`, `PANDA_STOP_OKAY`, ... are
enumerators of `panda/parser.h`, which is not among the sources.  The spec (section 7) says
that they are stable integers and (section 3) that stop codes are negative; their values are
parameters of the model. -/
structure panda_codes where
  PANDA_OKAY : Int
  PANDA_STOP_OKAY : Int
  PANDA_STOP_LENGTH : Int
  PANDA_STOP_ENCAP_DEPTH : Int
deriving DecidableEq

/-- A sample assignment of the return codes: `PANDA_OKAY` is `0` and the stop codes are small
negative numbers. -/
def sample_codes : panda_codes :=
  { PANDA_OKAY := 0, PANDA_STOP_OKAY := -1, PANDA_STOP_LENGTH := -3,
    PANDA_STOP_ENCAP_DEPTH := -5 }

/-! ## Protocol nodes -/

/-- Operations of a protocol node (`pnode->ops`): `len` has type `ssize_t (*)(const void *)`,
`next_proto` has type `int (*)(const void *)`; either may be `NULL` (`none`).  `H` is the type
of the header the `const void *` argument points to. -/
structure panda_proto_ops (H : Type) where
  len : Option (H → Int) := none
  next_proto : Option (H → Int) := none

/-- Modelled from the spec: `struct panda_proto_node` is declared in `panda/parser_types.h`,
which is not among the sources; the fields are those used by the initialisers in
`proto_gre.h` and by `check_pkt_len`.  `min_len` is a byte count (`size_t`, initialised from
`sizeof`). -/
structure panda_proto_node (H : Type) where
  name : String
  overlay : Bool := false
  encap : Bool := false
  min_len : Nat
  ops : panda_proto_ops H := {}

/-- The function `check_pkt_len(hdr, pnode, len, hlen)` of `c_def.template.c`.  The result is
the pair of the returned `int` and the final value of `*hlen`.  Both comparisons
`len < *hlen` and `*hlen < pnode->min_len` have one `size_t` and one `ssize_t` operand, so
`*hlen` is converted to `size_t`; `*hlen < 0` is a signed comparison. -/
def check_pkt_len {H : Type} (c : panda_codes) (hdr : H) (pnode : panda_proto_node H)
    (len : Nat) : Int × Int :=
  let hlen : Int := to_ssize_t pnode.min_len
  if len < to_size_t hlen then (c.PANDA_STOP_LENGTH, hlen)
  else
    match pnode.ops.len with
    | some f =>
      let hlen : Int := f hdr
      if len < to_size_t hlen then (c.PANDA_STOP_LENGTH, hlen)
      else if to_size_t hlen < pnode.min_len then
        (if hlen < 0 then to_int hlen else c.PANDA_STOP_LENGTH, hlen)
      else (c.PANDA_OKAY, hlen)
    | none => (c.PANDA_OKAY, to_ssize_t pnode.min_len)

/-- A protocol node with the given minimum length and `len` operation. -/
def node_with_len {H : Type} (min_len : Nat) (f : H → Int) : panda_proto_node H :=
  { name := "node", min_len := min_len, ops := { len := some f } }

/-- A protocol node with the given minimum length and no `len` operation. -/
def node_without_len (H : Type) (min_len : Nat) : panda_proto_node H :=
  { name := "node", min_len := min_len }

/-! ## Byte order -/

/-- Exchange of the two bytes of a 16-bit value. -/
def bswap16 (x : Nat) : Nat := (x % 256) * 256 + x / 256 % 256

/-- The macro `__cpu_to_be16(x)`: the 16-bit value that a host stores so that its bytes in
memory are those of `x` in network (big-endian) order.  `le` tells whether the host is
little-endian. -/
def cpu_to_be16 (le : Bool) (x : Nat) : Nat := if le then bswap16 x else x % 65536

/-- The function `ntohs(x)`: conversion of a 16-bit value from network to host byte order. -/
def ntohs (le : Bool) (x : Nat) : Nat := if le then bswap16 x else x % 65536

/-! ## GRE (`proto_gre.h`) -/

def GRE_CSUM (le : Bool) : Nat := cpu_to_be16 le 0x8000

def GRE_ROUTING (le : Bool) : Nat := cpu_to_be16 le 0x4000

def GRE_KEY (le : Bool) : Nat := cpu_to_be16 le 0x2000

def GRE_SEQ (le : Bool) : Nat := cpu_to_be16 le 0x1000

def GRE_ACK (le : Bool) : Nat := cpu_to_be16 le 0x0080

def GRE_VERSION (le : Bool) : Nat := cpu_to_be16 le 0x0007

def GRE_PROTO_PPP (le : Bool) : Nat := cpu_to_be16 le 0x880b

/-- One entry of a flag-fields table: the flag and the size of the field it announces. -/
structure panda_flag_field where
  flag : Nat
  size : Nat
deriving DecidableEq

/-- The table `gre_flag_fields`; `sizeof(__be32)` is 4. -/
def gre_flag_fields (le : Bool) : List panda_flag_field :=
  [ { flag := GRE_CSUM le, size := 4 },
    { flag := GRE_KEY le, size := 4 },
    { flag := GRE_SEQ le, size := 4 } ]

/-- The table `pptp_gre_flag_fields`. -/
def pptp_gre_flag_fields (le : Bool) : List panda_flag_field :=
  [ { flag := GRE_CSUM le, size := 4 },
    { flag := GRE_KEY le, size := 4 },
    { flag := GRE_SEQ le, size := 4 },
    { flag := GRE_ACK le, size := 4 } ]

/-- Modelled from the spec: `panda_flag_fields_length` is defined in `panda/flag_fields.h`,
which is not among the sources.  Spec, section 4.1: given a flags word, the length
contribution is the sum of `size` over the pairs whose `flag_mask & flags != 0`. -/
def panda_flag_fields_length (flags : Nat) (flag_fields : List panda_flag_field) : Nat :=
  (flag_fields.map (fun e => if e.flag &&& flags ≠ 0 then e.size else 0)).sum

/-- The header `struct gre_hdr` as the host reads it: `flags` and `protocol` are the raw
`__be16` values loaded from memory (the trailing `fields[0]` has no size). -/
structure gre_hdr where
  flags : Nat
  protocol : Nat
deriving DecidableEq

/-- The GRE header whose first two bytes on the wire are the big-endian number `flags` and
whose next two bytes are the big-endian number `protocol`, as seen by the host. -/
def gre_hdr_of_wire (le : Bool) (flags protocol : Nat) : gre_hdr :=
  { flags := cpu_to_be16 le flags, protocol := cpu_to_be16 le protocol }

/-- The value of `sizeof(struct gre_hdr)`: two `__be16` fields. -/
def sizeof_gre_hdr : Nat := 4

/-- The function `gre_len_check` of `proto_gre.h`. -/
def gre_len_check (c : panda_codes) (le : Bool) (vgre : gre_hdr) : Int :=
  if vgre.flags &&& GRE_ROUTING le ≠ 0 then c.PANDA_STOP_OKAY
  else (sizeof_gre_hdr : Int)

/-- The function `gre_proto_version` of `proto_gre.h`. -/
def gre_proto_version (le : Bool) (vgre : gre_hdr) : Int :=
  (ntohs le (vgre.flags &&& GRE_VERSION le) : Int)

/-- The function `gre_v0_len` of `proto_gre.h`. -/
def gre_v0_len (le : Bool) (vgre : gre_hdr) : Int :=
  ((sizeof_gre_hdr + panda_flag_fields_length vgre.flags (gre_flag_fields le) : Nat) : Int)

/-- The function `gre_v0_proto` of `proto_gre.h`. -/
def gre_v0_proto (vgre : gre_hdr) : Int := (vgre.protocol : Int)

/-- The function `gre_v1_len_check` of `proto_gre.h`. -/
def gre_v1_len_check (c : panda_codes) (le : Bool) (gre : gre_hdr) : Int :=
  if ¬ (gre.protocol = GRE_PROTO_PPP le ∧ gre.flags &&& GRE_KEY le ≠ 0) then c.PANDA_STOP_OKAY
  else
    ((sizeof_gre_hdr + panda_flag_fields_length gre.flags (pptp_gre_flag_fields le) : Nat)
      : Int)

/-- The function `gre_v1_proto` of `proto_gre.h`: the constant `GRE_PROTO_PPP`, whatever the
header. -/
def gre_v1_proto (le : Bool) (_vgre : gre_hdr) : Int := (GRE_PROTO_PPP le : Int)

/-- The protocol node `panda_parse_gre_base`. -/
def panda_parse_gre_base (c : panda_codes) (le : Bool) : panda_proto_node gre_hdr :=
  { name := "GRE base",
    overlay := true,
    min_len := sizeof_gre_hdr,
    ops := { len := some (gre_len_check c le), next_proto := some (gre_proto_version le) } }

/-- The protocol node `panda_parse_gre_v0`. -/
def panda_parse_gre_v0 (le : Bool) : panda_proto_node gre_hdr :=
  { name := "GRE v0",
    encap := true,
    min_len := sizeof_gre_hdr,
    ops := { next_proto := some gre_v0_proto, len := some (gre_v0_len le) } }

/-- The protocol node `panda_parse_gre_v1`. -/
def panda_parse_gre_v1 (c : panda_codes) (le : Bool) : panda_proto_node gre_hdr :=
  { name := "GRE v1 - pptp",
    encap := true,
    min_len := sizeof_gre_hdr,
    ops := { next_proto := some (gre_v1_proto le), len := some (gre_v1_len_check c le) } }

/-! ## Parse nodes and protocol tables (`parser_big.c`) -/

/-- The parse nodes defined in `parser_big.c`. -/
inductive parse_node where
  | ether_node | ipv4_check_node | ipv4_node | ipv6_check_node | ipv6_node
  | ip_overlay_node | ipv6_eh_node | ipv6_frag_node | gre_base_node | gre_v0_node
  | gre_v1_node | e8021AD_node | e8021Q_node | ppp_node | ipv4ip_node | ipv6ip_node
  | batman_node | ports_node | icmpv4_node | icmpv6_node | mpls_node | arp_node
  | rarp_node | tipc_node | fcoe_node | igmp_node | tcp_node
deriving DecidableEq

/-- One entry of a protocol table: the key `value` and the target node. -/
structure panda_proto_table_entry where
  value : Int
  node : parse_node
deriving DecidableEq

/-- The protocol table `gre_v1_table`, attached to `gre_v1_node`. -/
def gre_v1_table : List panda_proto_table_entry :=
  [ { value := 0, node := parse_node.ppp_node } ]

/-- Modelled from the spec: the table lookup of the engine is not among the sources.  Spec,
section 3: lookup is exact match, by key equality; a miss is `none`. -/
def lookup_node (key : Int) (table : List panda_proto_table_entry) : Option parse_node :=
  (table.find? (fun e => decide (e.value = key))).map (fun e => e.node)

/-! ### Protocol numbers of the system headers -/

/-- EtherType `ETH_P_IP` of `linux/if_ether.h`. -/
def ETH_P_IP : Nat := 0x0800

/-- EtherType `ETH_P_IPV6` of `linux/if_ether.h`. -/
def ETH_P_IPV6 : Nat := 0x86DD

/-- EtherType `ETH_P_8021AD` of `linux/if_ether.h`. -/
def ETH_P_8021AD : Nat := 0x88A8

/-- EtherType `ETH_P_8021Q` of `linux/if_ether.h`. -/
def ETH_P_8021Q : Nat := 0x8100

/-- EtherType `ETH_P_MPLS_UC` of `linux/if_ether.h`. -/
def ETH_P_MPLS_UC : Nat := 0x8847

/-- EtherType `ETH_P_MPLS_MC` of `linux/if_ether.h`. -/
def ETH_P_MPLS_MC : Nat := 0x8848

/-- EtherType `ETH_P_ARP` of `linux/if_ether.h`. -/
def ETH_P_ARP : Nat := 0x0806

/-- EtherType `ETH_P_RARP` of `linux/if_ether.h`. -/
def ETH_P_RARP : Nat := 0x8035

/-- EtherType `ETH_P_TIPC` of `linux/if_ether.h`. -/
def ETH_P_TIPC : Nat := 0x88CA

/-- EtherType `ETH_P_BATMAN` of `linux/if_ether.h`. -/
def ETH_P_BATMAN : Nat := 0x4305

/-- EtherType `ETH_P_FCOE` of `linux/if_ether.h`. -/
def ETH_P_FCOE : Nat := 0x8906

/-- EtherType `ETH_P_TEB` of `linux/if_ether.h`. -/
def ETH_P_TEB : Nat := 0x6558

/-- IP protocol number `IPPROTO_HOPOPTS` of `netinet/in.h`. -/
def IPPROTO_HOPOPTS : Int := 0

/-- IP protocol number `IPPROTO_ICMP` of `netinet/in.h`. -/
def IPPROTO_ICMP : Int := 1

/-- IP protocol number `IPPROTO_IGMP` of `netinet/in.h`. -/
def IPPROTO_IGMP : Int := 2

/-- IP protocol number `IPPROTO_IPIP` of `netinet/in.h`. -/
def IPPROTO_IPIP : Int := 4

/-- IP protocol number `IPPROTO_TCP` of `netinet/in.h`. -/
def IPPROTO_TCP : Int := 6

/-- IP protocol number `IPPROTO_UDP` of `netinet/in.h`. -/
def IPPROTO_UDP : Int := 17

/-- IP protocol number `IPPROTO_DCCP` of `netinet/in.h`. -/
def IPPROTO_DCCP : Int := 33

/-- IP protocol number `IPPROTO_IPV6` of `netinet/in.h`. -/
def IPPROTO_IPV6 : Int := 41

/-- IP protocol number `IPPROTO_ROUTING` of `netinet/in.h`. -/
def IPPROTO_ROUTING : Int := 43

/-- IP protocol number `IPPROTO_FRAGMENT` of `netinet/in.h`. -/
def IPPROTO_FRAGMENT : Int := 44

/-- IP protocol number `IPPROTO_GRE` of `netinet/in.h`. -/
def IPPROTO_GRE : Int := 47

/-- IP protocol number `IPPROTO_DSTOPTS` of `netinet/in.h`. -/
def IPPROTO_DSTOPTS : Int := 60

/-- IP protocol number `IPPROTO_SCTP` of `netinet/in.h`. -/
def IPPROTO_SCTP : Int := 132

/-- IP protocol number `IPPROTO_MPLS` of `netinet/in.h`. -/
def IPPROTO_MPLS : Int := 137

/-- PPP protocol number `PPP_IP` of `linux/ppp_defs.h`. -/
def PPP_IP : Int := 0x21

/-- PPP protocol number `PPP_IPV6` of `linux/ppp_defs.h`. -/
def PPP_IPV6 : Int := 0x57

/-- TCP option kind `TCPOPT_MSS`. -/
def TCPOPT_MSS : Int := 2

/-- TCP option kind `TCPOPT_WINDOW`. -/
def TCPOPT_WINDOW : Int := 3

/-- TCP option kind `TCPOPT_SACK`. -/
def TCPOPT_SACK : Int := 5

/-- TCP option kind `TCPOPT_TIMESTAMP`. -/
def TCPOPT_TIMESTAMP : Int := 8

/-- The key `__cpu_to_be16(x)` of a protocol table, as an `int`. -/
def be16_key (le : Bool) (x : Nat) : Int := (cpu_to_be16 le x : Int)

/-! ### Protocol tables -/

/-- The protocol table `ether_table`. -/
def ether_table (le : Bool) : List panda_proto_table_entry :=
  [ { value := be16_key le ETH_P_IP, node := parse_node.ipv4_check_node },
    { value := be16_key le ETH_P_IPV6, node := parse_node.ipv6_check_node },
    { value := be16_key le ETH_P_8021AD, node := parse_node.e8021AD_node },
    { value := be16_key le ETH_P_8021Q, node := parse_node.e8021Q_node },
    { value := be16_key le ETH_P_MPLS_UC, node := parse_node.mpls_node },
    { value := be16_key le ETH_P_MPLS_MC, node := parse_node.mpls_node },
    { value := be16_key le ETH_P_ARP, node := parse_node.arp_node },
    { value := be16_key le ETH_P_RARP, node := parse_node.rarp_node },
    { value := be16_key le ETH_P_TIPC, node := parse_node.tipc_node },
    { value := be16_key le ETH_P_BATMAN, node := parse_node.batman_node },
    { value := be16_key le ETH_P_FCOE, node := parse_node.fcoe_node } ]

/-- The protocol table `ipv4_check_table`. -/
def ipv4_check_table : List panda_proto_table_entry :=
  [ { value := 4, node := parse_node.ipv4_node } ]

/-- The protocol table `ipv4_table`; `&tcp_node.parse_node` is the parse node inside the TLVs
parse node `tcp_node`. -/
def ipv4_table : List panda_proto_table_entry :=
  [ { value := IPPROTO_TCP, node := parse_node.tcp_node },
    { value := IPPROTO_UDP, node := parse_node.ports_node },
    { value := IPPROTO_SCTP, node := parse_node.ports_node },
    { value := IPPROTO_DCCP, node := parse_node.ports_node },
    { value := IPPROTO_GRE, node := parse_node.gre_base_node },
    { value := IPPROTO_ICMP, node := parse_node.icmpv4_node },
    { value := IPPROTO_IGMP, node := parse_node.igmp_node },
    { value := IPPROTO_MPLS, node := parse_node.mpls_node },
    { value := IPPROTO_IPIP, node := parse_node.ipv4ip_node },
    { value := IPPROTO_IPV6, node := parse_node.ipv6ip_node } ]

/-- The protocol table `ipv6_check_table`. -/
def ipv6_check_table : List panda_proto_table_entry :=
  [ { value := 6, node := parse_node.ipv6_node } ]

/-- The protocol table `ipv6_table`. -/
def ipv6_table : List panda_proto_table_entry :=
  [ { value := IPPROTO_HOPOPTS, node := parse_node.ipv6_eh_node },
    { value := IPPROTO_ROUTING, node := parse_node.ipv6_eh_node },
    { value := IPPROTO_DSTOPTS, node := parse_node.ipv6_eh_node },
    { value := IPPROTO_FRAGMENT, node := parse_node.ipv6_frag_node },
    { value := IPPROTO_TCP, node := parse_node.tcp_node },
    { value := IPPROTO_UDP, node := parse_node.ports_node },
    { value := IPPROTO_SCTP, node := parse_node.ports_node },
    { value := IPPROTO_DCCP, node := parse_node.ports_node },
    { value := IPPROTO_GRE, node := parse_node.gre_base_node },
    { value := IPPROTO_ICMP, node := parse_node.icmpv6_node },
    { value := IPPROTO_IGMP, node := parse_node.igmp_node },
    { value := IPPROTO_MPLS, node := parse_node.mpls_node } ]

/-- The protocol table `ip_table`. -/
def ip_table : List panda_proto_table_entry :=
  [ { value := 4, node := parse_node.ipv4_node },
    { value := 6, node := parse_node.ipv6_node } ]

/-- The protocol table `ipv4ip_table`. -/
def ipv4ip_table : List panda_proto_table_entry :=
  [ { value := 0, node := parse_node.ipv4_node } ]

/-- The protocol table `ipv6ip_table`. -/
def ipv6ip_table : List panda_proto_table_entry :=
  [ { value := 0, node := parse_node.ipv6_node } ]

/-- The protocol table `gre_base_table`. -/
def gre_base_table : List panda_proto_table_entry :=
  [ { value := 0, node := parse_node.gre_v0_node },
    { value := 1, node := parse_node.gre_v1_node } ]

/-- The protocol table `gre_v0_table`. -/
def gre_v0_table (le : Bool) : List panda_proto_table_entry :=
  [ { value := be16_key le ETH_P_IP, node := parse_node.ipv4_check_node },
    { value := be16_key le ETH_P_IPV6, node := parse_node.ipv6_check_node },
    { value := be16_key le ETH_P_TEB, node := parse_node.ether_node } ]

/-- The protocol table `ppp_table`. -/
def ppp_table : List panda_proto_table_entry :=
  [ { value := PPP_IP, node := parse_node.ipv4_check_node },
    { value := PPP_IPV6, node := parse_node.ipv6_check_node } ]

/-- The names of the protocol tables that occur in `parser_big.c`. -/
inductive proto_table_name where
  | ether_table | ipv4_check_table | ipv4_table | ipv6_check_table | ipv6_table | ip_table
  | ipv4ip_table | ipv6ip_table | gre_base_table | gre_v0_table | gre_v1_table | ppp_table
deriving DecidableEq

/-- The `PANDA_MAKE_PROTO_TABLE` definitions of `parser_big.c`, in source order: the name of
each table with its entries. -/
def proto_tables (le : Bool) : List (proto_table_name × List panda_proto_table_entry) :=
  [ (proto_table_name.ether_table, ether_table le),
    (proto_table_name.ipv4_check_table, ipv4_check_table),
    (proto_table_name.ipv4_table, ipv4_table),
    (proto_table_name.ipv6_check_table, ipv6_check_table),
    (proto_table_name.ipv6_table, ipv6_table),
    (proto_table_name.ip_table, ip_table),
    (proto_table_name.ipv4ip_table, ipv4ip_table),
    (proto_table_name.ipv6ip_table, ipv6ip_table),
    (proto_table_name.gre_base_table, gre_base_table),
    (proto_table_name.gre_v0_table, gre_v0_table le),
    (proto_table_name.gre_v1_table, gre_v1_table),
    (proto_table_name.ppp_table, ppp_table) ]

/-! ### Parse node definitions -/

/-- The names of the TLV tables that occur in `parser_big.c`. -/
inductive tlv_table_name where
  | tcp_tlv_table
deriving DecidableEq

/-- One parse node definition: `PANDA_MAKE_PARSE_NODE(node, proto, metadata, handler, table)`,
`PANDA_MAKE_LEAF_PARSE_NODE(node, proto, metadata, handler)` (no table) or
`PANDA_MAKE_LEAF_TLVS_PARSE_NODE(node, proto, metadata, handler, post, tlv_table)` (no
protocol table, a TLV table).  `proto` and `metadata` are the names given in the source. -/
structure parse_node_def where
  node : parse_node
  proto : String
  metadata : String
  table : Option proto_table_name := none
  tlv_table : Option tlv_table_name := none
deriving DecidableEq

/-- The parse node definitions of `parser_big.c`, in source order. -/
def parse_node_defs : List parse_node_def :=
  [ { node := parse_node.ether_node, proto := "panda_parse_ether",
      metadata := "ether_metadata", table := some proto_table_name.ether_table },
    { node := parse_node.ipv4_check_node, proto := "panda_parse_ip",
      metadata := "panda_null_extract_metadata",
      table := some proto_table_name.ipv4_check_table },
    { node := parse_node.ipv4_node, proto := "panda_parse_ipv4",
      metadata := "ipv4_metadata", table := some proto_table_name.ipv4_table },
    { node := parse_node.ipv6_check_node, proto := "panda_parse_ip",
      metadata := "panda_null_extract_metadata",
      table := some proto_table_name.ipv6_check_table },
    { node := parse_node.ipv6_node, proto := "panda_parse_ipv6_stopflowlabel",
      metadata := "ipv6_metadata", table := some proto_table_name.ipv6_table },
    { node := parse_node.ip_overlay_node, proto := "panda_parse_ip",
      metadata := "ip_overlay_metadata", table := some proto_table_name.ip_table },
    { node := parse_node.ipv6_eh_node, proto := "panda_parse_ipv6_eh",
      metadata := "ipv6_eh_metadata", table := some proto_table_name.ipv6_table },
    { node := parse_node.ipv6_frag_node, proto := "panda_parse_ipv6_frag_eh",
      metadata := "ipv6_frag_metadata", table := some proto_table_name.ipv6_table },
    { node := parse_node.gre_base_node, proto := "panda_parse_gre_base",
      metadata := "panda_null_extract_metadata",
      table := some proto_table_name.gre_base_table },
    { node := parse_node.gre_v0_node, proto := "panda_parse_gre_v0",
      metadata := "gre_v0_metadata", table := some proto_table_name.gre_v0_table },
    { node := parse_node.gre_v1_node, proto := "panda_parse_gre_v1",
      metadata := "gre_v1_metadata", table := some proto_table_name.gre_v1_table },
    { node := parse_node.e8021AD_node, proto := "panda_parse_vlan",
      metadata := "e8021AD_metadata", table := some proto_table_name.ether_table },
    { node := parse_node.e8021Q_node, proto := "panda_parse_vlan",
      metadata := "e8021Q_metadata", table := some proto_table_name.ether_table },
    { node := parse_node.ppp_node, proto := "panda_parse_ppp",
      metadata := "panda_null_extract_metadata", table := some proto_table_name.ppp_table },
    { node := parse_node.ipv4ip_node, proto := "panda_parse_ipv4ip",
      metadata := "panda_null_extract_metadata",
      table := some proto_table_name.ipv4ip_table },
    { node := parse_node.ipv6ip_node, proto := "panda_parse_ipv6ip",
      metadata := "panda_null_extract_metadata",
      table := some proto_table_name.ipv6ip_table },
    { node := parse_node.batman_node, proto := "panda_parse_batman",
      metadata := "panda_null_extract_metadata",
      table := some proto_table_name.ether_table },
    { node := parse_node.ports_node, proto := "panda_parse_ports",
      metadata := "ports_metadata" },
    { node := parse_node.icmpv4_node, proto := "panda_parse_icmpv4",
      metadata := "icmp_metadata" },
    { node := parse_node.icmpv6_node, proto := "panda_parse_icmpv6",
      metadata := "icmp_metadata" },
    { node := parse_node.mpls_node, proto := "panda_parse_mpls",
      metadata := "mpls_metadata" },
    { node := parse_node.arp_node, proto := "panda_parse_arp",
      metadata := "arp_rarp_metadata" },
    { node := parse_node.rarp_node, proto := "panda_parse_rarp",
      metadata := "arp_rarp_metadata" },
    { node := parse_node.tipc_node, proto := "panda_parse_tipc",
      metadata := "tipc_metadata" },
    { node := parse_node.fcoe_node, proto := "panda_parse_fcoe",
      metadata := "panda_null_extract_metadata" },
    { node := parse_node.igmp_node, proto := "panda_parse_igmp",
      metadata := "panda_null_extract_metadata" },
    { node := parse_node.tcp_node, proto := "panda_parse_tcp_tlvs",
      metadata := "ports_metadata", tlv_table := some tlv_table_name.tcp_tlv_table } ]

/-- The definition of a parse node, if the file has one. -/
def find_parse_node_def (n : parse_node) : Option parse_node_def :=
  parse_node_defs.find? (fun d => decide (d.node = n))

/-- The protocol table named in the definition of a parse node; `none` for a node defined
without a protocol table (a leaf) and for a node without definition. -/
def parse_node_table (n : parse_node) : Option proto_table_name :=
  (find_parse_node_def n).bind (fun d => d.table)

/-- The entries of the protocol table with the given name, if the file defines it. -/
def find_proto_table (le : Bool) (t : proto_table_name) :
    Option (List panda_proto_table_entry) :=
  ((proto_tables le).find? (fun e => decide (e.1 = t))).map (fun e => e.2)

/-- A parse node is a leaf when it has a definition and the definition names no protocol
table. -/
def is_leaf (n : parse_node) : Bool :=
  match find_parse_node_def n with
  | some d => d.table.isNone
  | none => false

/-- One dispatch step: the node selected by `key` in the protocol table of node `n`; `none`
when `n` has no protocol table or the key misses the table. -/
def next_node (le : Bool) (n : parse_node) (key : Int) : Option parse_node :=
  ((parse_node_table n).bind (find_proto_table le)).bind (lookup_node key)

/-- The nodes visited from `n` when the successive dispatch keys are `keys`: `n` first, the
node reached last; `none` as soon as a lookup fails. -/
def follow (le : Bool) : parse_node → List Int → Option (List parse_node)
  | n, [] => some [n]
  | n, key :: keys =>
    match next_node le n key with
    | some m => (follow le m keys).map (fun path => n :: path)
    | none => none

/-! ### TLV parse nodes, TLV table and parsers -/

/-- The TLV parse nodes named in `parser_big.c`. -/
inductive tlv_parse_node where
  | tcp_opt_mss_node | tcp_opt_window_scaling_node | tcp_opt_timestamp_node
  | tcp_opt_sack_node
deriving DecidableEq

/-- One TLV parse node definition:
`PANDA_MAKE_TLV_PARSE_NODE(node, check_length, metadata, handler)`. -/
structure tlv_parse_node_def where
  node : tlv_parse_node
  check_length : String
  metadata : String
deriving DecidableEq

/-- The TLV parse node definitions of `parser_big.c`, in source order. -/
def tlv_parse_node_defs : List tlv_parse_node_def :=
  [ { node := tlv_parse_node.tcp_opt_mss_node,
      check_length := "tcp_option_mss_check_length", metadata := "tcp_opt_mss_metadata" },
    { node := tlv_parse_node.tcp_opt_window_scaling_node,
      check_length := "tcp_option_window_scaling_check_length",
      metadata := "tcp_opt_window_scaling_metadata" },
    { node := tlv_parse_node.tcp_opt_timestamp_node,
      check_length := "tcp_option_timestamp_check_length",
      metadata := "tcp_opt_timestamp_metadata" },
    { node := tlv_parse_node.tcp_opt_sack_node,
      check_length := "tcp_option_sack_check_length", metadata := "tcp_opt_sack_metadata" } ]

/-- One entry of a TLV table: the TLV type and the target TLV parse node. -/
structure panda_proto_tlv_table_entry where
  type : Int
  node : tlv_parse_node
deriving DecidableEq

/-- The TLV table `tcp_tlv_table`. -/
def tcp_tlv_table : List panda_proto_tlv_table_entry :=
  [ { type := TCPOPT_MSS, node := tlv_parse_node.tcp_opt_mss_node },
    { type := TCPOPT_WINDOW, node := tlv_parse_node.tcp_opt_window_scaling_node },
    { type := TCPOPT_TIMESTAMP, node := tlv_parse_node.tcp_opt_timestamp_node },
    { type := TCPOPT_SACK, node := tlv_parse_node.tcp_opt_sack_node } ]

/-- The `PANDA_MAKE_TLV_TABLE` definitions of `parser_big.c`. -/
def tlv_tables : List (tlv_table_name × List panda_proto_tlv_table_entry) :=
  [ (tlv_table_name.tcp_tlv_table, tcp_tlv_table) ]

/-- One registered parser: `PANDA_PARSER_ADD(name, description, &root)`. -/
structure parser_def where
  name : String
  description : String
  root : parse_node
deriving DecidableEq

/-- The parsers registered in `parser_big.c`. -/
def parser_defs : List parser_def :=
  [ { name := "panda_parser_big_ether", description := "PANDA big parser for Ethernet",
      root := parse_node.ether_node },
    { name := "panda_parser_big_ip", description := "PANDA big parser for IP",
      root := parse_node.ip_overlay_node } ]

/-! ## Encapsulation layers (`c_def.template.c`) -/

/-- Modelled from the spec: `struct panda_metadata` is declared in `panda/parser.h`, which is
not among the sources.  Following the spec (section 4.4, step 6) the encapsulation depth
`encaps`, `max_frame_num` and `frame_size` are natural numbers. -/
structure panda_metadata where
  encaps : Nat
  max_frame_num : Nat
  frame_size : Nat
deriving DecidableEq

/-- The function `panda_encap_layer(metadata, max_encaps, frame, frame_num)` of
`c_def.template.c`.  The
result is the returned `int` together with the final values of `*metadata`, `*frame` (an
address) and `*frame_num`.  The increment `++metadata->encaps` is done before the test and is
kept on both paths. -/
def panda_encap_layer (c : panda_codes) (metadata : panda_metadata) (max_encaps : Nat)
    (frame : Nat) (frame_num : Nat) : Int × panda_metadata × Nat × Nat :=
  let metadata : panda_metadata := { metadata with encaps := metadata.encaps + 1 }
  if metadata.encaps > max_encaps then (c.PANDA_STOP_ENCAP_DEPTH, metadata, frame, frame_num)
  else if metadata.max_frame_num > frame_num then
    (c.PANDA_OKAY, metadata, frame + metadata.frame_size, frame_num + 1)
  else (c.PANDA_OKAY, metadata, frame, frame_num)

/-- The state `(*metadata, *frame, *frame_num)` after `n` consecutive calls of
`panda_encap_layer` with the same `max_encaps`, starting from `s`. -/
def encap_calls (c : panda_codes) (max_encaps : Nat) :
    Nat → panda_metadata × Nat × Nat → panda_metadata × Nat × Nat
  | 0, s => s
  | n + 1, s =>
    let t := encap_calls c max_encaps n s
    (panda_encap_layer c t.1 max_encaps t.2.1 t.2.2).2

/-- The value returned by the `k`-th call (`k = 1` is the first) in a sequence of consecutive
calls of `panda_encap_layer` starting from `s`. -/
def encap_call_ret (c : panda_codes) (max_encaps : Nat) (k : Nat)
    (s : panda_metadata × Nat × Nat) : Int :=
  let t := encap_calls c max_encaps (k - 1) s
  (panda_encap_layer c t.1 max_encaps t.2.1 t.2.2).1

/-- The frame rotation invariant relative to the address `base` of the first frame: the frame
index is at most `max_frame_num` and the frame position is `base + index * frame_size`. -/
def frame_inv (base : Nat) (s : panda_metadata × Nat × Nat) : Prop :=
  s.2.2 ≤ s.1.max_frame_num ∧ s.2.1 = base + s.2.2 * s.1.frame_size

instance (base : Nat) (s : panda_metadata × Nat × Nat) : Decidable (frame_inv base s) := by
  unfold frame_inv
  infer_instance

/-! ## Encapsulation along a walk -/

/-- Modelled from the spec: whether the protocol node of a parse node is an encapsulation.
For the GRE parse nodes this is the `encap` field of the protocol nodes of `proto_gre.h`.
The protocol nodes `panda_parse_ether`, `panda_parse_ip`, `panda_parse_ipv4` and
`panda_parse_icmpv4` are defined in headers that are not among the sources; the spec
(section 4.2) describes Ethernet, the IP overlay, IPv4 and ICMP without the encapsulation
property.  No value is given for the other parse nodes. -/
def parse_node_encap (c : panda_codes) (le : Bool) : parse_node → Option Bool
  | parse_node.gre_base_node => some (panda_parse_gre_base c le).encap
  | parse_node.gre_v0_node => some (panda_parse_gre_v0 le).encap
  | parse_node.gre_v1_node => some (panda_parse_gre_v1 c le).encap
  | parse_node.ether_node => some false
  | parse_node.ipv4_check_node => some false
  | parse_node.ipv4_node => some false
  | parse_node.icmpv4_node => some false
  | _ => none

/-- The encapsulation bookkeeping along a list of visited nodes: `panda_encap_layer` is called
for every node whose protocol node is an encapsulation, and the walk stops at the first call
that does not return `PANDA_OKAY`.  The result is the return code and the final
`(*metadata, *frame, *frame_num)`. -/
def cross_encaps (c : panda_codes) (le : Bool) (max_encaps : Nat) :
    List parse_node → panda_metadata × Nat × Nat → Int × panda_metadata × Nat × Nat
  | [], s => (c.PANDA_OKAY, s)
  | n :: ns, s =>
    if parse_node_encap c le n = some true then
      let r := panda_encap_layer c s.1 max_encaps s.2.1 s.2.2
      if r.1 = c.PANDA_OKAY then cross_encaps c le max_encaps ns r.2 else r
    else cross_encaps c le max_encaps ns s

/-! ## The compiler (`tools/compiler/src/main.cpp`) -/

/-- The exceptions that the handlers of `parse_file` distinguish. -/
inductive build_exception where
  | cpp_exception
  | std_exception
  | unexpected
deriving DecidableEq

/-- One registered root: the parser name, the vertex of the root node and the flag kept with
it (the element type of `roots` in `main.cpp`). -/
structure root_entry where
  name : String
  vertex : Nat
  flag : Bool
deriving DecidableEq

/-- The effect of the `try` block of `parse_file` on one source file.  The macro handlers,
`connect_vertices` and `fill_tlv_node_to_vertices` (`pandagen/graph.h`,
`pandagen/macro_defs.h`) are not among the sources, so this effect is a parameter of the
model: the vertices of `g` and the entries of `roots` at the moment the block is left, and the
exception that left it, if any. -/
structure build_run where
  vertices : List String
  roots : List root_entry
  raised : Option build_exception
deriving DecidableEq

/-- The state in which `parse_file` leaves its reference arguments `g` and `roots`, and the
diagnostics it wrote to the standard error stream. -/
structure parse_result where
  vertices : List String
  roots : List root_entry
  diagnostics : List String
deriving DecidableEq

/-- The function `parse_file(g, roots, filename)` of `main.cpp`: every exception that leaves
the `try` block is caught by one of the three handlers, which writes one diagnostic; the
function then returns normally (its return type is `void`), leaving `g` and `roots` as they
were when the exception was thrown. -/
def parse_file (run : build_run) : parse_result :=
  match run.raised with
  | none => { vertices := run.vertices, roots := run.roots, diagnostics := [] }
  | some build_exception.cpp_exception =>
    { vertices := run.vertices, roots := run.roots, diagnostics := ["preprocessing error"] }
  | some build_exception.std_exception =>
    { vertices := run.vertices, roots := run.roots, diagnostics := ["exception caught"] }
  | some build_exception.unexpected =>
    { vertices := run.vertices, roots := run.roots,
      diagnostics := ["unexpected exception caught."] }

/-- An output file written by `main`: the Graphviz file written by `dotify`, or the C file
written by `generate_parsers` and `generate_root_parser` together with its header. -/
inductive output_event where
  | dot_file (name : List Char)
  | c_file (name : List Char) (header_name : List Char)
deriving DecidableEq

/-- How a run of `main` ends: `exit status emitted` when `main` returns `status`, or
`uncaught emitted` when an exception leaves `main` (the program is terminated, `main` returns
no status); `emitted` lists the output files written. -/
inductive main_outcome where
  | exit (status : Int) (emitted : List output_event)
  | uncaught (emitted : List output_event)
deriving DecidableEq

/-- The difference `a - b` computed in `size_t`, for `a` the size of a string and `b` a small
constant: it wraps around when `a < b`. -/
def size_t_sub (a b : Nat) : Nat := if b ≤ a then a - b else a + SIZE_MOD - b

/-- The call `s.substr(pos)` of `std::string`: the characters from position `pos` to the end;
it throws `std::out_of_range` (`none`) when `pos > s.size()`. -/
def substr (s : List Char) (pos : Nat) : Option (List Char) :=
  if pos > s.length then none else some (s.drop pos)

/-- The call `s.substr(0, count)` of `std::string`: the first `count` characters, or all of
`s` when it is shorter. -/
def substr_count (s : List Char) (count : Nat) : List Char := s.take count

/-- The function `main(argc, argv)` of `main.cpp`; `argv` lists the `argc` arguments
(strings are lists of characters) and `build` gives the effect of building the graph from a
source file.  Text written to the standard output is not modelled.  Control reaching the end
of `main` returns 0. -/
def main (argv : List (List Char)) (build : List Char → build_run) : main_outcome :=
  if argv.length ≠ 2 ∧ argv.length ≠ 3 then main_outcome.exit 1 []
  else
    let parsed := parse_file (build (argv.getD 1 []))
    if ¬ parsed.roots.isEmpty then
      if argv.length = 3 then
        let output := argv.getD 2 []
        match substr output (max (size_t_sub output.length 4) 0) with
        | none => main_outcome.uncaught []
        | some ext =>
          if ext = ".dot".toList then main_outcome.exit 0 [output_event.dot_file output]
          else
            match substr output (max (size_t_sub output.length 2) 0) with
            | none => main_outcome.uncaught []
            | some ext =>
              if ext = ".c".toList then
                main_outcome.exit 0
                  [output_event.c_file output
                    (substr_count output (size_t_sub output.length 2) ++ ".h".toList)]
              else main_outcome.exit 1 []
      else main_outcome.exit 0 []
    else main_outcome.exit 0 []

/-! ## TLV parsing (`c_def.template.c`) -/

/-- Modelled from the spec: the lookup in a TLV table is not among the sources.  Spec, section
4.4, step 4: a TLV is looked up by its type; section 3: matching is by key equality; a miss is
`none`. -/
def lookup_tlv_node (type : Int) (table : List panda_proto_tlv_table_entry) :
    Option tlv_parse_node :=
  (table.find? (fun e => decide (e.type = type))).map (fun e => e.node)

/-- A call of an operation of a TLV parse node through its function pointer. -/
inductive tlv_call where
  | extract_metadata
  | handle_tlv
deriving DecidableEq

/-- Modelled from the spec: `struct panda_parse_tlv_node_ops` is declared in
`panda/parser_types.h`, which is not among the sources.  Spec, section 3: a TLV node has
`check_length(tlv_bytes, frame) -> ok | stop-code`, `extract_metadata` and `handle_tlv`; each
pointer may be `NULL` (`none`).  `B` is the type of the TLV bytes, `F` of the frame and `C` of
the control data; `extract_metadata` gives the frame it leaves, `handle_tlv` gives the `int` it
returns and the frame it leaves. -/
structure panda_parse_tlv_node_ops (B F C : Type) where
  check_length : Option (B → F → Int) := none
  extract_metadata : Option (B → F → C → F) := none
  handle_tlv : Option (B → F → C → Int × F) := none

/-- The part of `struct panda_parse_tlv_node` that `panda_parse_tlv` uses. -/
structure panda_parse_tlv_node (B F C : Type) where
  tlv_ops : panda_parse_tlv_node_ops B F C := {}

/-- The part of `struct panda_parse_tlvs_node` that `panda_parse_tlv` uses: the wildcard TLV
node, if one is declared, and the code returned for an unknown TLV type. -/
structure panda_parse_tlvs_node (B F C : Type) where
  tlv_wildcard_node : Option (panda_parse_tlv_node B F C) := none
  unknown_tlv_type_ret : Int

/-- What a call of `panda_parse_tlv` leaves: the returned `int`, the frame, and the calls made
through the operations of TLV nodes, in order. -/
structure tlv_outcome (F : Type) where
  ret : Int
  frame : F
  calls : List tlv_call
deriving DecidableEq

/-- The end of `panda_parse_tlv`, reached when the length check did not return early:
`extract_metadata` and then `handle_tlv` are called if present, the value returned by
`handle_tlv` is dropped, and the function returns `PANDA_OKAY`. -/
def tlv_extract_and_handle {B F C : Type} (c : panda_codes)
    (ops : panda_parse_tlv_node_ops B F C) (cp : B) (frame : F) (tlv_ctrl : C) :
    tlv_outcome F :=
  let s1 : F × List tlv_call :=
    match ops.extract_metadata with
    | some f => (f cp frame tlv_ctrl, [tlv_call.extract_metadata])
    | none => (frame, [])
  let s2 : F × List tlv_call :=
    match ops.handle_tlv with
    | some h => ((h cp s1.1 tlv_ctrl).2, s1.2 ++ [tlv_call.handle_tlv])
    | none => s1
  { ret := c.PANDA_OKAY, frame := s2.1, calls := s2.2 }

/-- The function `panda_parse_tlv(parse_node, parse_tlv_node, cp, frame, tlv_ctrl)` of
`c_def.template.c`.  The function calls itself on the wildcard node; the first argument bounds
the number of nested calls, and `none` means that this bound was reached. -/
def panda_parse_tlv {B F C : Type} (c : panda_codes) :
    Nat → panda_parse_tlvs_node B F C → panda_parse_tlv_node B F C → B → F → C →
      Option (tlv_outcome F)
  | 0, _, _, _, _, _ => none
  | fuel + 1, parse_node, parse_tlv_node, cp, frame, tlv_ctrl =>
    let ops := parse_tlv_node.tlv_ops
    match ops.check_length with
    | some check_length =>
      let ret := check_length cp frame
      if ret ≠ c.PANDA_OKAY then
        match parse_node.tlv_wildcard_node with
        | some wildcard => panda_parse_tlv c fuel parse_node wildcard cp frame tlv_ctrl
        | none => some { ret := parse_node.unknown_tlv_type_ret, frame := frame, calls := [] }
      else some (tlv_extract_and_handle c ops cp frame tlv_ctrl)
    | none => some (tlv_extract_and_handle c ops cp frame tlv_ctrl)

/-- A TLV node whose `check_length` returns `ret` and whose `extract_metadata` and
`handle_tlv` both add 1 to a frame that is a number. -/
def sample_tlv_node (ret : Int) : panda_parse_tlv_node Unit Nat Unit :=
  { tlv_ops := { check_length := some (fun _ _ => ret),
                 extract_metadata := some (fun _ frame _ => frame + 1),
                 handle_tlv := some (fun _ frame _ => (0, frame + 1)) } }

/-! ## Conversions -/

theorem to_size_t_of_nonneg (x : Int) (h0 : 0 ≤ x) (hx : is_ssize_t x) :
    (to_size_t x : Int) = x := by
  unfold to_size_t SIZE_MOD
  unfold is_ssize_t at hx
  omega

theorem to_size_t_of_neg (x : Int) (h0 : x < 0) (hx : is_ssize_t x) :
    (to_size_t x : Int) = x + 2 ^ 64 := by
  unfold to_size_t SIZE_MOD
  unfold is_ssize_t at hx
  omega

theorem to_size_t_to_ssize_t (n : Nat) (hn : is_size_t n) : to_size_t (to_ssize_t n) = n := by
  unfold to_size_t to_ssize_t SIZE_MOD SSIZE_MAX
  unfold is_size_t SIZE_MOD at hn
  split <;> omega

theorem to_ssize_t_of_le (n : Nat) (hn : n ≤ SSIZE_MAX) : to_ssize_t n = n := by
  unfold to_ssize_t SIZE_MOD
  unfold SSIZE_MAX at *
  split <;> omega

/-! ## Bits of a flags word -/

theorem and_two_pow_ne_zero_iff (x k : Nat) : x &&& 2 ^ k ≠ 0 ↔ x / 2 ^ k % 2 = 1 := by
  have key : (x &&& 2 ^ k).testBit k = x.testBit k := by
    simp [Nat.testBit_and, Nat.testBit_two_pow_self]
  constructor
  · intro h
    by_contra hc
    apply h
    apply Nat.eq_of_testBit_eq
    intro i
    simp only [Nat.testBit_and, Nat.testBit_two_pow, Nat.zero_testBit, Bool.and_eq_false_imp,
      decide_eq_false_iff_not]
    intro hxi hki
    subst hki
    rw [Nat.testBit_to_div_mod] at hxi
    exact hc (of_decide_eq_true hxi)
  · intro h hz
    have hb : x.testBit k = true := by
      rw [Nat.testBit_to_div_mod]
      exact decide_eq_true h
    rw [← key, hz] at hb
    simp at hb

theorem gre_routing_of_wire (le : Bool) (flags protocol : Nat) (hfl : flags < 65536) :
    (gre_hdr_of_wire le flags protocol).flags &&& GRE_ROUTING le ≠ 0
      ↔ flags &&& 0x4000 ≠ 0 := by
  have e14 : (0x4000 : Nat) = 2 ^ 14 := by norm_num
  rw [e14, and_two_pow_ne_zero_iff]
  cases le
  · have e : GRE_ROUTING false = 2 ^ 14 := by decide
    rw [e, and_two_pow_ne_zero_iff]
    simp only [gre_hdr_of_wire, cpu_to_be16, Bool.false_eq_true, if_false]
    rw [Nat.mod_eq_of_lt hfl]
  · have e : GRE_ROUTING true = 2 ^ 6 := by decide
    rw [e, and_two_pow_ne_zero_iff]
    simp only [gre_hdr_of_wire, cpu_to_be16, if_true, bswap16, Nat.reducePow]
    have h1 : (flags % 256 * 256 + flags / 256 % 256) / 64
        = flags % 256 * 4 + flags / 256 / 64 := by omega
    have h2 : flags / 16384 = flags / 256 / 64 := by omega
    rw [h1, h2]
    omega

/-! ## The length check -/

theorem check_pkt_len_neg {H : Type} (c : panda_codes) (hdr : H) (pnode : panda_proto_node H)
    (f : H → Int) (r : Nat) (hf : pnode.ops.len = some f) (hneg : f hdr < 0)
    (hs : is_ssize_t (f hdr)) (hmin : pnode.min_len ≤ r) (hr : is_length r) :
    check_pkt_len c hdr pnode r = (c.PANDA_STOP_LENGTH, f hdr) := by
  have hr2 : r ≤ 2 ^ 63 - 1 := hr
  have h1 : to_size_t (to_ssize_t pnode.min_len) = pnode.min_len :=
    to_size_t_to_ssize_t _ (by unfold is_size_t SIZE_MOD; omega)
  have h2 := to_size_t_of_neg (f hdr) hneg hs
  have h3 : -(2 : Int) ^ 63 ≤ f hdr := hs.1
  unfold check_pkt_len
  simp only [hf, h1]
  rw [if_neg (by omega), if_pos (by omega)]

theorem check_pkt_len_none {H : Type} (c : panda_codes) (hdr : H) (pnode : panda_proto_node H)
    (r : Nat) (hf : pnode.ops.len = none) (hm : is_size_t pnode.min_len) :
    check_pkt_len c hdr pnode r =
      if r < pnode.min_len then (c.PANDA_STOP_LENGTH, to_ssize_t pnode.min_len)
      else (c.PANDA_OKAY, to_ssize_t pnode.min_len) := by
  have h1 : to_size_t (to_ssize_t pnode.min_len) = pnode.min_len := to_size_t_to_ssize_t _ hm
  unfold check_pkt_len
  simp only [hf, h1]

theorem check_pkt_len_some {H : Type} (c : panda_codes) (hdr : H) (pnode : panda_proto_node H)
    (f : H → Int) (r : Nat) (hf : pnode.ops.len = some f) (hs : is_ssize_t (f hdr))
    (hm : is_size_t pnode.min_len) (hr : is_length r) :
    check_pkt_len c hdr pnode r =
      if r < pnode.min_len then (c.PANDA_STOP_LENGTH, to_ssize_t pnode.min_len)
      else if f hdr < 0 ∨ (r : Int) < f hdr ∨ f hdr < (pnode.min_len : Int) then
        (c.PANDA_STOP_LENGTH, f hdr)
      else (c.PANDA_OKAY, f hdr) := by
  have hr2 : r ≤ 2 ^ 63 - 1 := hr
  have h1 : to_size_t (to_ssize_t pnode.min_len) = pnode.min_len := to_size_t_to_ssize_t _ hm
  have h3 : -(2 : Int) ^ 63 ≤ f hdr := hs.1
  unfold check_pkt_len
  simp only [hf, h1]
  by_cases hlt : r < pnode.min_len
  · rw [if_pos hlt, if_pos hlt]
  · rw [if_neg hlt, if_neg hlt]
    by_cases hneg : f hdr < 0
    · have h2 := to_size_t_of_neg (f hdr) hneg hs
      rw [if_pos (by omega), if_pos (Or.inl hneg)]
    · have h2 := to_size_t_of_nonneg (f hdr) (by omega) hs
      by_cases hrl : (r : Int) < f hdr
      · rw [if_pos (by omega), if_pos (Or.inr (Or.inl hrl))]
      · rw [if_neg (by omega)]
        by_cases hml : f hdr < (pnode.min_len : Int)
        · rw [if_pos (by omega), if_neg hneg, if_pos (Or.inr (Or.inr hml))]
        · rw [if_neg (by omega), if_neg (by omega)]

theorem check_pkt_len_some_nonneg {H : Type} (c : panda_codes) (hdr : H)
    (pnode : panda_proto_node H) (f : H → Int) (r : Nat) (hf : pnode.ops.len = some f)
    (h0 : 0 ≤ f hdr) (hs : is_ssize_t (f hdr)) (hm : is_size_t pnode.min_len) :
    check_pkt_len c hdr pnode r =
      if r < pnode.min_len then (c.PANDA_STOP_LENGTH, to_ssize_t pnode.min_len)
      else if (r : Int) < f hdr ∨ f hdr < (pnode.min_len : Int) then
        (c.PANDA_STOP_LENGTH, f hdr)
      else (c.PANDA_OKAY, f hdr) := by
  have h1 : to_size_t (to_ssize_t pnode.min_len) = pnode.min_len := to_size_t_to_ssize_t _ hm
  have h2 := to_size_t_of_nonneg (f hdr) h0 hs
  unfold check_pkt_len
  simp only [hf, h1]
  by_cases hlt : r < pnode.min_len
  · rw [if_pos hlt, if_pos hlt]
  · rw [if_neg hlt, if_neg hlt]
    by_cases hrl : (r : Int) < f hdr
    · rw [if_pos (by omega), if_pos (Or.inl hrl)]
    · rw [if_neg (by omega)]
      by_cases hml : f hdr < (pnode.min_len : Int)
      · rw [if_pos (by omega), if_neg (by omega), if_pos (Or.inr hml)]
      · rw [if_neg (by omega), if_neg (by omega)]

theorem is_size_t_of_is_length (n : Nat) (h : is_length n) : is_size_t n := by
  unfold is_length SSIZE_MAX at h
  unfold is_size_t SIZE_MOD
  omega

/-- C1 (refuted on the code): for a node with a `len` operation and a remaining length `r` with
`min_len ≤ r`, when `len(hdr)` returns a negative value `s` the function `check_pkt_len` does
not return `s`: in `len < *hlen` the operand `*hlen = s` is converted to `size_t`, where it is
at least `2 ^ 63` and so above `r`, and the function returns `PANDA_STOP_LENGTH` with
`*hlen = s`. -/
theorem check_pkt_len_negative_len {H : Type} (c : panda_codes) (hdr : H)
    (pnode : panda_proto_node H) (f : H → Int) (r : Nat) (hf : pnode.ops.len = some f)
    (hneg : f hdr < 0) (hs : is_ssize_t (f hdr)) (hmin : pnode.min_len ≤ r)
    (hr : is_length r) :
    check_pkt_len c hdr pnode r = (c.PANDA_STOP_LENGTH, f hdr) :=
  check_pkt_len_neg c hdr pnode f r hf hneg hs hmin hr

/-- Witness of C1: a node with `min_len = 4` whose `len` returns `-1`, 100 bytes remaining. -/
theorem check_pkt_len_negative_len_witness :
    (node_with_len 4 (fun _ : Unit => (-1 : Int))).ops.len = some (fun _ : Unit => (-1 : Int))
      ∧ (-1 : Int) < 0 ∧ is_ssize_t (-1) ∧ 4 ≤ 100 ∧ is_length 100
      ∧ check_pkt_len sample_codes () (node_with_len 4 (fun _ : Unit => (-1 : Int))) 100
          = (sample_codes.PANDA_STOP_LENGTH, -1) :=
  ⟨rfl, by decide, by decide, by decide, by decide,
    check_pkt_len_negative_len sample_codes () (node_with_len 4 (fun _ : Unit => (-1 : Int)))
      (fun _ : Unit => (-1 : Int)) 100 rfl (by decide) (by decide) (by decide) (by decide)⟩

/-- C2 (refuted on the code): on every host and for every GRE header, the key
`gre_v1_proto(hdr)` is `GRE_PROTO_PPP`, which is not `0`, while the only key of `gre_v1_table`
is `0`: the lookup by key equality misses and does not select `ppp_node`.  The header with
wire flags `0x2001` (KEY set, version 1) and protocol `0x880b` is accepted by
`gre_v1_len_check` (length 8). -/
theorem gre_v1_proto_misses_gre_v1_table :
    (∀ (le : Bool) (vgre : gre_hdr), lookup_node (gre_v1_proto le vgre) gre_v1_table = none)
      ∧ (∀ le : Bool,
          gre_v1_len_check sample_codes le (gre_hdr_of_wire le 0x2001 0x880b) = 8) := by
  constructor
  · intro le vgre
    cases le <;> rfl
  · intro le
    cases le <;> decide

/-- C3 (refuted on the code): for every GRE header whose ROUTING flag (wire bit `0x4000`) is
set and every remaining length `r ≥ 4`, the length check of the GRE base node does not return
`PANDA_STOP_OKAY`: `gre_len_check` returns the negative `PANDA_STOP_OKAY`, which converted to
`size_t` is above `r`, and `check_pkt_len` returns `PANDA_STOP_LENGTH` (with
`*hlen = PANDA_STOP_OKAY`). -/
theorem gre_base_routing_stop_length (c : panda_codes) (le : Bool) (flags protocol r : Nat)
    (hfl : flags < 65536) (hrt : flags &&& 0x4000 ≠ 0) (hso : c.PANDA_STOP_OKAY < 0)
    (hsr : is_ssize_t c.PANDA_STOP_OKAY) (h4 : 4 ≤ r) (hr : is_length r) :
    check_pkt_len c (gre_hdr_of_wire le flags protocol) (panda_parse_gre_base c le) r
      = (c.PANDA_STOP_LENGTH, c.PANDA_STOP_OKAY) := by
  have hg : gre_len_check c le (gre_hdr_of_wire le flags protocol) = c.PANDA_STOP_OKAY := by
    unfold gre_len_check
    rw [if_pos ((gre_routing_of_wire le flags protocol hfl).mpr hrt)]
  have h := check_pkt_len_neg c (gre_hdr_of_wire le flags protocol) (panda_parse_gre_base c le)
    (gre_len_check c le) r rfl (by rw [hg]; exact hso) (by rw [hg]; exact hsr) h4 hr
  rw [h, hg]

/-- Witness of C3: little-endian host, wire flags `0x4000`, protocol `0x0800`, 100 bytes. -/
theorem gre_base_routing_stop_length_witness :
    (0x4000 : Nat) < 65536 ∧ (0x4000 : Nat) &&& 0x4000 ≠ 0 ∧ sample_codes.PANDA_STOP_OKAY < 0
      ∧ is_ssize_t sample_codes.PANDA_STOP_OKAY ∧ 4 ≤ 100 ∧ is_length 100
      ∧ check_pkt_len sample_codes (gre_hdr_of_wire true 0x4000 0x0800)
          (panda_parse_gre_base sample_codes true) 100
          = (sample_codes.PANDA_STOP_LENGTH, sample_codes.PANDA_STOP_OKAY) :=
  ⟨by decide, by decide, by decide, by decide, by decide, by decide,
    gre_base_routing_stop_length sample_codes true 0x4000 0x0800 100 (by decide) (by decide)
      (by decide) (by decide) (by decide) (by decide)⟩

theorem check_pkt_len_okay_range {H : Type} (c : panda_codes) (hdr : H)
    (pnode : panda_proto_node H) (r : Nat) (hlen : Int)
    (hc : c.PANDA_STOP_LENGTH ≠ c.PANDA_OKAY) (hm : is_size_t pnode.min_len)
    (hl : ∀ f, pnode.ops.len = some f → is_ssize_t (f hdr)) (hr : is_length r)
    (hok : check_pkt_len c hdr pnode r = (c.PANDA_OKAY, hlen)) :
    (pnode.min_len : Int) ≤ hlen ∧ hlen ≤ (r : Int) := by
  have hr2 : r ≤ 2 ^ 63 - 1 := hr
  cases hf : pnode.ops.len with
  | none =>
    rw [check_pkt_len_none c hdr pnode r hf hm] at hok
    by_cases hlt : r < pnode.min_len
    · rw [if_pos hlt] at hok
      exact absurd (congrArg Prod.fst hok) hc
    · rw [if_neg hlt] at hok
      have h2 : to_ssize_t pnode.min_len = hlen := congrArg Prod.snd hok
      have h3 : to_ssize_t pnode.min_len = pnode.min_len :=
        to_ssize_t_of_le _ (by unfold SSIZE_MAX; omega)
      omega
  | some f =>
    rw [check_pkt_len_some c hdr pnode f r hf (hl f hf) hm hr] at hok
    by_cases hlt : r < pnode.min_len
    · rw [if_pos hlt] at hok
      exact absurd (congrArg Prod.fst hok) hc
    · rw [if_neg hlt] at hok
      by_cases hbad : f hdr < 0 ∨ (r : Int) < f hdr ∨ f hdr < (pnode.min_len : Int)
      · rw [if_pos hbad] at hok
        exact absurd (congrArg Prod.fst hok) hc
      · rw [if_neg hbad] at hok
        have h2 : f hdr = hlen := congrArg Prod.snd hok
        omega

/-- C4: for every protocol node (with or without a `len` operation, whatever `ssize_t` value
`len` returns, negative or very large values included), every header and every remaining
length `r`: if `check_pkt_len` returns `PANDA_OKAY`, the header length `hlen` it outputs
satisfies `min_len ≤ hlen ≤ r`.  Here `min_len` is a `size_t`, `r` the length of a buffer and
`PANDA_STOP_LENGTH` differs from `PANDA_OKAY`. -/
theorem check_pkt_len_okay_bounds {H : Type} (c : panda_codes) (hdr : H)
    (pnode : panda_proto_node H) (r : Nat) (hlen : Int)
    (hc : c.PANDA_STOP_LENGTH ≠ c.PANDA_OKAY) (hm : is_size_t pnode.min_len)
    (hl : ∀ f, pnode.ops.len = some f → is_ssize_t (f hdr)) (hr : is_length r)
    (hok : check_pkt_len c hdr pnode r = (c.PANDA_OKAY, hlen)) :
    (pnode.min_len : Int) ≤ hlen ∧ hlen ≤ (r : Int) :=
  check_pkt_len_okay_range c hdr pnode r hlen hc hm hl hr hok

/-- Witness of C4: a node with `min_len = 4` whose `len` returns 8, 100 bytes remaining. -/
theorem check_pkt_len_okay_bounds_witness :
    sample_codes.PANDA_STOP_LENGTH ≠ sample_codes.PANDA_OKAY ∧ is_size_t 4 ∧ is_ssize_t 8
      ∧ is_length 100
      ∧ check_pkt_len sample_codes () (node_with_len 4 (fun _ : Unit => (8 : Int))) 100
          = (sample_codes.PANDA_OKAY, 8)
      ∧ ((4 : Nat) : Int) ≤ 8 ∧ (8 : Int) ≤ ((100 : Nat) : Int) :=
  ⟨by decide, by decide, by decide, by decide, by decide,
    check_pkt_len_okay_bounds sample_codes () (node_with_len 4 (fun _ : Unit => (8 : Int))) 100 8
      (by decide) (by decide)
      (fun f hf => by
        have e : (fun _ : Unit => (8 : Int)) = f := Option.some.inj hf
        subst e
        decide)
      (by decide) (by decide)⟩

/-- C5: for every protocol node and every remaining length `r`, with `h = min_len` when the
`len` operation is absent and `h = len(hdr)` when it returns a non-negative value:
`check_pkt_len` returns `PANDA_OKAY` with `*hlen = h` exactly when `min_len ≤ h ≤ r`, and
returns `PANDA_STOP_LENGTH` otherwise.  When `r < min_len` it returns `PANDA_STOP_LENGTH`
whatever the `len` operation is.  For a node with `min_len = 20` and `len = 4 * IHL`
(`IHL ≤ 15`) it accepts `5 ≤ IHL` when `4 * IHL ≤ r` and returns `PANDA_STOP_LENGTH` for
`IHL < 5`.  Here `min_len` is the size of a header and `PANDA_STOP_LENGTH` differs from
`PANDA_OKAY`. -/
theorem check_pkt_len_nonneg_len {H : Type} (c : panda_codes) (hdr : H)
    (pnode : panda_proto_node H) (r : Nat) (hc : c.PANDA_STOP_LENGTH ≠ c.PANDA_OKAY)
    (hm : is_length pnode.min_len) :
    (pnode.ops.len = none →
        (check_pkt_len c hdr pnode r = (c.PANDA_OKAY, (pnode.min_len : Int))
            ↔ pnode.min_len ≤ r)
          ∧ (¬ pnode.min_len ≤ r → (check_pkt_len c hdr pnode r).1 = c.PANDA_STOP_LENGTH))
      ∧ (∀ f, pnode.ops.len = some f → 0 ≤ f hdr → is_ssize_t (f hdr) →
        (check_pkt_len c hdr pnode r = (c.PANDA_OKAY, f hdr)
            ↔ (pnode.min_len : Int) ≤ f hdr ∧ f hdr ≤ (r : Int))
          ∧ (¬ ((pnode.min_len : Int) ≤ f hdr ∧ f hdr ≤ (r : Int)) →
              (check_pkt_len c hdr pnode r).1 = c.PANDA_STOP_LENGTH))
      ∧ (r < pnode.min_len → (check_pkt_len c hdr pnode r).1 = c.PANDA_STOP_LENGTH)
      ∧ (∀ (f : H → Int) (ihl : Nat), pnode.min_len = 20 → pnode.ops.len = some f →
          f hdr = 4 * (ihl : Int) → ihl ≤ 15 →
          (5 ≤ ihl → 4 * ihl ≤ r →
              check_pkt_len c hdr pnode r = (c.PANDA_OKAY, 4 * (ihl : Int)))
            ∧ (ihl < 5 → (check_pkt_len c hdr pnode r).1 = c.PANDA_STOP_LENGTH)) := by
  have hm1 : is_size_t pnode.min_len := is_size_t_of_is_length _ hm
  have hm2 : to_ssize_t pnode.min_len = pnode.min_len := to_ssize_t_of_le _ hm
  have hfst : ∀ x : Int, (c.PANDA_STOP_LENGTH, x) ≠ (c.PANDA_OKAY, x) :=
    fun x h => hc (congrArg Prod.fst h)
  refine ⟨?_, ?_, ?_, ?_⟩
  · intro hf
    rw [check_pkt_len_none c hdr pnode r hf hm1, hm2]
    by_cases hlt : r < pnode.min_len
    · rw [if_pos hlt]
      exact ⟨⟨fun h => absurd h (hfst _), fun h => absurd hlt (by omega)⟩, fun _ => rfl⟩
    · rw [if_neg hlt]
      exact ⟨⟨fun _ => by omega, fun _ => rfl⟩, fun h => absurd (by omega) h⟩
  · intro f hf h0 hs
    rw [check_pkt_len_some_nonneg c hdr pnode f r hf h0 hs hm1, hm2]
    by_cases hlt : r < pnode.min_len
    · rw [if_pos hlt]
      refine ⟨⟨fun h => absurd (congrArg Prod.fst h) hc, fun h => absurd hlt (by omega)⟩,
        fun _ => rfl⟩
    · rw [if_neg hlt]
      by_cases hbad : (r : Int) < f hdr ∨ f hdr < (pnode.min_len : Int)
      · rw [if_pos hbad]
        exact ⟨⟨fun h => absurd h (hfst _), fun h => absurd hbad (by omega)⟩, fun _ => rfl⟩
      · rw [if_neg hbad]
        exact ⟨⟨fun _ => by omega, fun _ => rfl⟩, fun h => absurd (by omega) h⟩
  · intro hlt
    have h1 : to_size_t (to_ssize_t pnode.min_len) = pnode.min_len :=
      to_size_t_to_ssize_t _ hm1
    unfold check_pkt_len
    simp only [h1]
    rw [if_pos hlt]
  · intro f ihl h20 hf hfv hihl
    have h0 : 0 ≤ f hdr := by omega
    have hs : is_ssize_t (f hdr) := by
      unfold is_ssize_t
      omega
    rw [check_pkt_len_some_nonneg c hdr pnode f r hf h0 hs hm1, h20, hfv]
    constructor
    · intro h5 hr
      rw [if_neg (by omega), if_neg (by omega)]
    · intro h5
      by_cases hlt : r < 20
      · rw [if_pos hlt]
      · rw [if_neg hlt, if_pos (by omega)]

/-- Witness of C5: a node with `min_len = 20` whose `len` returns 20 (IHL 5), 64 bytes
remaining. -/
theorem check_pkt_len_nonneg_len_witness :
    sample_codes.PANDA_STOP_LENGTH ≠ sample_codes.PANDA_OKAY ∧ is_length 20
      ∧ check_pkt_len sample_codes () (node_with_len 20 (fun _ : Unit => (20 : Int))) 64
          = (sample_codes.PANDA_OKAY, 20) :=
  ⟨by decide, by decide,
    ((check_pkt_len_nonneg_len sample_codes () (node_with_len 20 (fun _ : Unit => (20 : Int)))
      64 (by decide) (by decide)).2.1 (fun _ : Unit => (20 : Int)) rfl (by decide)
      (by decide)).1.mpr ⟨by decide, by decide⟩⟩

/-- C6, counterexample: a node with `min_len = 4` whose `len` returns 0, with 100 bytes
remaining: `check_pkt_len` returns `PANDA_STOP_LENGTH` with `*hlen = 0`, not `PANDA_OKAY` with
`*hlen = 4`. -/
theorem check_pkt_len_len_zero_counterexample :
    check_pkt_len sample_codes () (node_with_len 4 (fun _ : Unit => (0 : Int))) 100
        = (sample_codes.PANDA_STOP_LENGTH, 0)
      ∧ check_pkt_len sample_codes () (node_with_len 4 (fun _ : Unit => (0 : Int))) 100
        ≠ (sample_codes.PANDA_OKAY, 4) := by
  decide

/-- C6 (amended): for every protocol node with a `len` operation and `min_len > 0` and every
remaining length `r ≥ min_len`: if `len(hdr)` returns 0, `check_pkt_len` returns
`PANDA_STOP_LENGTH` with `*hlen = 0`; a returned 0 is a header length below `min_len`, it does
not select `min_len`. -/
theorem check_pkt_len_len_zero {H : Type} (c : panda_codes) (hdr : H)
    (pnode : panda_proto_node H) (f : H → Int) (r : Nat) (hf : pnode.ops.len = some f)
    (hz : f hdr = 0) (hpos : 0 < pnode.min_len) (hm : is_size_t pnode.min_len)
    (hmin : pnode.min_len ≤ r) :
    check_pkt_len c hdr pnode r = (c.PANDA_STOP_LENGTH, 0) := by
  have hs : is_ssize_t (f hdr) := by
    rw [hz]
    decide
  rw [check_pkt_len_some_nonneg c hdr pnode f r hf (by omega) hs hm, hz]
  rw [if_neg (by omega), if_pos (Or.inr (by omega))]

/-- Witness of C6 (amended): `min_len = 4`, `len` returns 0, 100 bytes remaining. -/
theorem check_pkt_len_len_zero_witness :
    (fun _ : Unit => (0 : Int)) () = 0 ∧ 0 < 4 ∧ is_size_t 4 ∧ 4 ≤ 100
      ∧ check_pkt_len sample_codes () (node_with_len 4 (fun _ : Unit => (0 : Int))) 100
          = (sample_codes.PANDA_STOP_LENGTH, 0) :=
  ⟨rfl, by decide, by decide, by decide,
    check_pkt_len_len_zero sample_codes () (node_with_len 4 (fun _ : Unit => (0 : Int)))
      (fun _ : Unit => (0 : Int)) 100 rfl rfl (by decide) (by decide) (by decide)⟩

/-- C7, counterexample: a node with `min_len = 0` and no `len` operation, with 10 bytes
remaining: `check_pkt_len` returns `PANDA_OKAY` with `*hlen = 0`, which is not strictly
positive; the step leaves the remaining length `10 - 0 = 10`, not smaller than before. -/
theorem check_pkt_len_progress_counterexample :
    check_pkt_len sample_codes () (node_without_len Unit 0) 10 = (sample_codes.PANDA_OKAY, 0)
      ∧ ¬ ((0 : Int) < (check_pkt_len sample_codes () (node_without_len Unit 0) 10).2)
      ∧ ¬ (((10 : Nat) : Int) - (check_pkt_len sample_codes () (node_without_len Unit 0) 10).2
            < ((10 : Nat) : Int)) := by
  decide

/-- C7 (amended): progress for nodes with `min_len > 0`.  For every protocol node with
`min_len > 0`, every header and every remaining length `r`, whenever `check_pkt_len` returns
`PANDA_OKAY` the header length `hlen` it outputs is strictly positive and at most `r`, so the
step `r -= hlen` leaves a remaining length strictly smaller than `r` and not negative.  Here
`min_len` is a `size_t`, `len` returns an `ssize_t`, `r` is the length of a buffer and
`PANDA_STOP_LENGTH` differs from `PANDA_OKAY`. -/
theorem check_pkt_len_progress {H : Type} (c : panda_codes) (hdr : H)
    (pnode : panda_proto_node H) (r : Nat) (hlen : Int)
    (hc : c.PANDA_STOP_LENGTH ≠ c.PANDA_OKAY) (hpos : 0 < pnode.min_len)
    (hm : is_size_t pnode.min_len) (hl : ∀ f, pnode.ops.len = some f → is_ssize_t (f hdr))
    (hr : is_length r) (hok : check_pkt_len c hdr pnode r = (c.PANDA_OKAY, hlen)) :
    0 < hlen ∧ (r : Int) - hlen < (r : Int) ∧ 0 ≤ (r : Int) - hlen := by
  have hb := check_pkt_len_okay_range c hdr pnode r hlen hc hm hl hr hok
  omega

/-- Witness of C7 (amended): `min_len = 4`, `len` returns 8, 100 bytes remaining. -/
theorem check_pkt_len_progress_witness :
    sample_codes.PANDA_STOP_LENGTH ≠ sample_codes.PANDA_OKAY ∧ 0 < 4 ∧ is_size_t 4
      ∧ is_ssize_t 8 ∧ is_length 100
      ∧ check_pkt_len sample_codes () (node_with_len 4 (fun _ : Unit => (8 : Int))) 100
          = (sample_codes.PANDA_OKAY, 8)
      ∧ (0 : Int) < 8 ∧ ((100 : Nat) : Int) - 8 < ((100 : Nat) : Int)
      ∧ 0 ≤ ((100 : Nat) : Int) - 8 :=
  ⟨by decide, by decide, by decide, by decide, by decide, by decide,
    check_pkt_len_progress sample_codes () (node_with_len 4 (fun _ : Unit => (8 : Int))) 100 8
      (by decide) (by decide) (by decide)
      (fun f hf => by
        have e : (fun _ : Unit => (8 : Int)) = f := Option.some.inj hf
        subst e
        decide)
      (by decide) (by decide)⟩

/-! ## Encapsulation layers -/

theorem panda_encap_layer_metadata (c : panda_codes) (md : panda_metadata)
    (max_encaps f i : Nat) :
    (panda_encap_layer c md max_encaps f i).2.1 = { md with encaps := md.encaps + 1 } := by
  unfold panda_encap_layer
  dsimp only
  split_ifs <;> rfl

theorem encap_calls_metadata (c : panda_codes) (max_encaps : Nat) (n : Nat)
    (s : panda_metadata × Nat × Nat) :
    (encap_calls c max_encaps n s).1 = { s.1 with encaps := s.1.encaps + n } := by
  induction n with
  | zero => rfl
  | succ n ih =>
    show (panda_encap_layer c (encap_calls c max_encaps n s).1 max_encaps _ _).2.1 = _
    rw [panda_encap_layer_metadata, ih]
    rfl

theorem encap_call_ret_eq (c : panda_codes) (max_encaps k : Nat)
    (s : panda_metadata × Nat × Nat) (hk : 1 ≤ k) :
    encap_call_ret c max_encaps k s =
      if s.1.encaps + k > max_encaps then c.PANDA_STOP_ENCAP_DEPTH else c.PANDA_OKAY := by
  have hm := encap_calls_metadata c max_encaps (k - 1) s
  have he : (encap_calls c max_encaps (k - 1) s).1.encaps + 1 = s.1.encaps + k := by
    rw [hm]
    show s.1.encaps + (k - 1) + 1 = s.1.encaps + k
    omega
  unfold encap_call_ret panda_encap_layer
  dsimp only
  rw [he]
  split_ifs <;> rfl

theorem frame_inv_step (c : panda_codes) (max_encaps base : Nat)
    (s : panda_metadata × Nat × Nat) (hinv : frame_inv base s) :
    frame_inv base (panda_encap_layer c s.1 max_encaps s.2.1 s.2.2).2 := by
  obtain ⟨h1, h2⟩ := hinv
  unfold panda_encap_layer frame_inv
  dsimp only
  split_ifs with ha hb
  · exact ⟨h1, h2⟩
  · refine ⟨hb, ?_⟩
    show s.2.1 + s.1.frame_size = base + (s.2.2 + 1) * s.1.frame_size
    rw [h2, Nat.add_mul, Nat.one_mul, Nat.add_assoc]
  · exact ⟨h1, h2⟩

theorem frame_inv_calls (c : panda_codes) (max_encaps base : Nat) (n : Nat)
    (s : panda_metadata × Nat × Nat) (hinv : frame_inv base s) :
    frame_inv base (encap_calls c max_encaps n s) := by
  induction n with
  | zero => exact hinv
  | succ n ih => exact frame_inv_step c max_encaps base _ ih

/-- C8: for every metadata state (`encaps = d`, `max_frame_num`, `frame_size`), `max_encaps`,
frame position `f` and frame index `i`, `panda_encap_layer` sets `encaps` to `d + 1`; it
returns `PANDA_STOP_ENCAP_DEPTH` exactly when `d + 1 > max_encaps`, and then `f` and `i` are
unchanged; otherwise it returns `PANDA_OKAY` and the result is `f + frame_size`, `i + 1` if
`i < max_frame_num`, and `f`, `i` unchanged if `i ≥ max_frame_num`.  Here
`PANDA_STOP_ENCAP_DEPTH` differs from `PANDA_OKAY`. -/
theorem panda_encap_layer_spec (c : panda_codes) (md : panda_metadata)
    (max_encaps f i : Nat) (hc : c.PANDA_STOP_ENCAP_DEPTH ≠ c.PANDA_OKAY) :
    ((panda_encap_layer c md max_encaps f i).1 = c.PANDA_STOP_ENCAP_DEPTH
        ↔ md.encaps + 1 > max_encaps)
      ∧ (md.encaps + 1 > max_encaps →
          panda_encap_layer c md max_encaps f i
            = (c.PANDA_STOP_ENCAP_DEPTH, { md with encaps := md.encaps + 1 }, f, i))
      ∧ (¬ md.encaps + 1 > max_encaps → i < md.max_frame_num →
          panda_encap_layer c md max_encaps f i
            = (c.PANDA_OKAY, { md with encaps := md.encaps + 1 }, f + md.frame_size, i + 1))
      ∧ (¬ md.encaps + 1 > max_encaps → md.max_frame_num ≤ i →
          panda_encap_layer c md max_encaps f i
            = (c.PANDA_OKAY, { md with encaps := md.encaps + 1 }, f, i)) := by
  unfold panda_encap_layer
  dsimp only
  refine ⟨?_, ?_, ?_, ?_⟩
  · by_cases hd : md.encaps + 1 > max_encaps
    · rw [if_pos hd]
      exact ⟨fun _ => hd, fun _ => rfl⟩
    · rw [if_neg hd]
      refine ⟨fun h => ?_, fun h => absurd h hd⟩
      split_ifs at h <;> exact absurd h.symm hc
  · intro hd
    rw [if_pos hd]
  · intro hd hi
    rw [if_neg hd, if_pos hi]
  · intro hd hi
    rw [if_neg hd, if_neg (by omega)]

/-- Witness of C8: depth 0, `max_encaps = 4`, `max_frame_num = 2`, `frame_size = 64`, first
frame at address 1000. -/
theorem panda_encap_layer_spec_witness :
    sample_codes.PANDA_STOP_ENCAP_DEPTH ≠ sample_codes.PANDA_OKAY
      ∧ panda_encap_layer sample_codes ⟨0, 2, 64⟩ 4 1000 0
          = (sample_codes.PANDA_OKAY, ⟨1, 2, 64⟩, 1064, 1) :=
  ⟨by decide,
    (panda_encap_layer_spec sample_codes ⟨0, 2, 64⟩ 4 1000 0 (by decide)).2.2.1
      (by decide) (by decide)⟩

/-- C9: starting from encapsulation depth 0, in every sequence of consecutive
`panda_encap_layer` calls with the same `max_encaps`, the `k`-th call returns `PANDA_OKAY` if
`1 ≤ k ≤ max_encaps` and `PANDA_STOP_ENCAP_DEPTH` if `k > max_encaps`, in particular for
`k = max_encaps + 1`; with `max_encaps = 4` the fifth call returns `PANDA_STOP_ENCAP_DEPTH`. -/
theorem encap_depth_bounded (c : panda_codes) (md : panda_metadata) (max_encaps f i k : Nat)
    (h0 : md.encaps = 0) :
    (1 ≤ k → k ≤ max_encaps → encap_call_ret c max_encaps k (md, f, i) = c.PANDA_OKAY)
      ∧ (max_encaps < k →
          encap_call_ret c max_encaps k (md, f, i) = c.PANDA_STOP_ENCAP_DEPTH)
      ∧ encap_call_ret c max_encaps (max_encaps + 1) (md, f, i) = c.PANDA_STOP_ENCAP_DEPTH
      ∧ encap_call_ret c 4 5 (md, f, i) = c.PANDA_STOP_ENCAP_DEPTH := by
  refine ⟨?_, ?_, ?_, ?_⟩
  · intro h1 hk
    rw [encap_call_ret_eq c max_encaps k (md, f, i) h1]
    show (if md.encaps + k > max_encaps then _ else _) = _
    rw [if_neg (by omega)]
  · intro hk
    rw [encap_call_ret_eq c max_encaps k (md, f, i) (by omega)]
    show (if md.encaps + k > max_encaps then _ else _) = _
    rw [if_pos (by omega)]
  · rw [encap_call_ret_eq c max_encaps (max_encaps + 1) (md, f, i) (by omega)]
    show (if md.encaps + (max_encaps + 1) > max_encaps then _ else _) = _
    rw [if_pos (by omega)]
  · rw [encap_call_ret_eq c 4 5 (md, f, i) (by omega)]
    show (if md.encaps + 5 > 4 then _ else _) = _
    rw [if_pos (by omega)]

/-- Witness of C9: `max_encaps = 4`, `max_frame_num = 2`; the fourth call returns `PANDA_OKAY`
and the fifth `PANDA_STOP_ENCAP_DEPTH`. -/
theorem encap_depth_bounded_witness :
    (⟨0, 2, 64⟩ : panda_metadata).encaps = 0
      ∧ encap_call_ret sample_codes 4 4 (⟨0, 2, 64⟩, 1000, 0) = sample_codes.PANDA_OKAY
      ∧ encap_call_ret sample_codes 4 5 (⟨0, 2, 64⟩, 1000, 0)
          = sample_codes.PANDA_STOP_ENCAP_DEPTH :=
  ⟨rfl,
    (encap_depth_bounded sample_codes ⟨0, 2, 64⟩ 4 1000 0 4 rfl).1 (by decide) (by decide),
    (encap_depth_bounded sample_codes ⟨0, 2, 64⟩ 4 1000 0 5 rfl).2.1 (by decide)⟩

/-- C10: frame rotation invariant.  If before a call the frame index is at most
`max_frame_num` and the frame position is `base + index * frame_size`, the same holds after
`panda_encap_layer` and after every sequence of calls, none of which changes `max_frame_num`
or `frame_size`; so the frame index never exceeds `max_frame_num`, the frame position is
always one of the `max_frame_num + 1` addresses `base + j * frame_size` with
`j ≤ max_frame_num`, and when `max_frame_num = 0` the frame position never moves. -/
theorem frame_rotation_invariant (c : panda_codes) (max_encaps base : Nat)
    (s : panda_metadata × Nat × Nat) (hinv : frame_inv base s) :
    frame_inv base (panda_encap_layer c s.1 max_encaps s.2.1 s.2.2).2
      ∧ (∀ n : Nat,
          frame_inv base (encap_calls c max_encaps n s)
            ∧ (encap_calls c max_encaps n s).1.max_frame_num = s.1.max_frame_num
            ∧ (encap_calls c max_encaps n s).1.frame_size = s.1.frame_size
            ∧ (encap_calls c max_encaps n s).2.2 ≤ s.1.max_frame_num
            ∧ (∃ j, j ≤ s.1.max_frame_num
                ∧ (encap_calls c max_encaps n s).2.1 = base + j * s.1.frame_size))
      ∧ (s.1.max_frame_num = 0 → ∀ n : Nat, (encap_calls c max_encaps n s).2.1 = s.2.1) := by
  have hmd : ∀ n : Nat, (encap_calls c max_encaps n s).1.max_frame_num = s.1.max_frame_num
      ∧ (encap_calls c max_encaps n s).1.frame_size = s.1.frame_size := by
    intro n
    rw [encap_calls_metadata]
    exact ⟨rfl, rfl⟩
  have hall : ∀ n : Nat, (encap_calls c max_encaps n s).2.2 ≤ s.1.max_frame_num
      ∧ (encap_calls c max_encaps n s).2.1
          = base + (encap_calls c max_encaps n s).2.2 * s.1.frame_size := by
    intro n
    have h := frame_inv_calls c max_encaps base n s hinv
    unfold frame_inv at h
    rw [(hmd n).1, (hmd n).2] at h
    exact h
  refine ⟨frame_inv_step c max_encaps base s hinv, ?_, ?_⟩
  · intro n
    exact ⟨frame_inv_calls c max_encaps base n s hinv, (hmd n).1, (hmd n).2, (hall n).1,
      ⟨_, (hall n).1, (hall n).2⟩⟩
  · intro hz n
    obtain ⟨h1, h2⟩ := hall n
    obtain ⟨h3, h4⟩ := hinv
    have e1 : (encap_calls c max_encaps n s).2.2 = 0 := by omega
    have e2 : s.2.2 = 0 := by omega
    rw [h2, h4, e1, e2]

/-- Witness of C10: `max_frame_num = 2`, `frame_size = 64`, first frame at address 1000; after
five calls the frame index is 2 and the frame position is `1000 + 2 * 64`. -/
theorem frame_rotation_invariant_witness :
    frame_inv 1000 (⟨0, 2, 64⟩, 1000, 0)
      ∧ frame_inv 1000 (encap_calls sample_codes 4 5 (⟨0, 2, 64⟩, 1000, 0))
      ∧ (encap_calls sample_codes 4 5 (⟨0, 2, 64⟩, 1000, 0)).2.2 ≤ 2 :=
  ⟨by decide,
    ((frame_rotation_invariant sample_codes 4 1000 (⟨0, 2, 64⟩, 1000, 0) (by decide)).2.1 5).1,
    ((frame_rotation_invariant sample_codes 4 1000 (⟨0, 2, 64⟩, 1000, 0)
      (by decide)).2.1 5).2.2.2.1⟩

/-! ## GRE flags and version -/

theorem bswap16_flag_bits (x : Nat) (hx : x < 65536) :
    bswap16 x / 2 ^ 7 % 2 = x / 2 ^ 15 % 2 ∧ bswap16 x / 2 ^ 5 % 2 = x / 2 ^ 13 % 2
      ∧ bswap16 x / 2 ^ 4 % 2 = x / 2 ^ 12 % 2 ∧ bswap16 x / 2 ^ 15 % 2 = x / 2 ^ 7 % 2 := by
  unfold bswap16
  simp only [Nat.reducePow]
  have a1 : (x % 256 * 256 + x / 256 % 256) / 128 = x % 256 * 2 + x / 256 / 128 := by omega
  have a2 : (x % 256 * 256 + x / 256 % 256) / 32 = x % 256 * 8 + x / 256 / 32 := by omega
  have a3 : (x % 256 * 256 + x / 256 % 256) / 16 = x % 256 * 16 + x / 256 / 16 := by omega
  have a4 : (x % 256 * 256 + x / 256 % 256) / 32768 = x % 256 / 128 := by omega
  have b1 : x / 32768 = x / 256 / 128 := by omega
  have b2 : x / 8192 = x / 256 / 32 := by omega
  have b3 : x / 4096 = x / 256 / 16 := by omega
  have b4 : x / 128 = x / 256 * 2 + x % 256 / 128 := by omega
  rw [a1, a2, a3, a4, b1, b2, b3, b4]
  refine ⟨?_, ?_, ?_, ?_⟩ <;> omega

theorem flag_and_of_wire (le : Bool) (fw m km kh : Nat) (hfl : fw < 65536)
    (hm : m = 2 ^ km) (hm16 : m < 65536) (hle : bswap16 m = 2 ^ kh)
    (hbit : bswap16 fw / 2 ^ kh % 2 = fw / 2 ^ km % 2) :
    cpu_to_be16 le m &&& cpu_to_be16 le fw ≠ 0 ↔ fw &&& m ≠ 0 := by
  rw [Nat.land_comm (cpu_to_be16 le m)]
  cases le
  · simp only [cpu_to_be16, Bool.false_eq_true, if_false]
    rw [Nat.mod_eq_of_lt hfl, Nat.mod_eq_of_lt hm16]
  · simp only [cpu_to_be16, if_true]
    rw [hle, hm, and_two_pow_ne_zero_iff, and_two_pow_ne_zero_iff, hbit]

theorem gre_csum_of_wire (le : Bool) (fw : Nat) (hfl : fw < 65536) :
    GRE_CSUM le &&& cpu_to_be16 le fw ≠ 0 ↔ fw &&& 0x8000 ≠ 0 :=
  flag_and_of_wire le fw 0x8000 15 7 hfl (by norm_num) (by norm_num) (by decide)
    (bswap16_flag_bits fw hfl).1

theorem gre_key_of_wire (le : Bool) (fw : Nat) (hfl : fw < 65536) :
    GRE_KEY le &&& cpu_to_be16 le fw ≠ 0 ↔ fw &&& 0x2000 ≠ 0 :=
  flag_and_of_wire le fw 0x2000 13 5 hfl (by norm_num) (by norm_num) (by decide)
    (bswap16_flag_bits fw hfl).2.1

theorem gre_seq_of_wire (le : Bool) (fw : Nat) (hfl : fw < 65536) :
    GRE_SEQ le &&& cpu_to_be16 le fw ≠ 0 ↔ fw &&& 0x1000 ≠ 0 :=
  flag_and_of_wire le fw 0x1000 12 4 hfl (by norm_num) (by norm_num) (by decide)
    (bswap16_flag_bits fw hfl).2.2.1

theorem gre_ack_of_wire (le : Bool) (fw : Nat) (hfl : fw < 65536) :
    GRE_ACK le &&& cpu_to_be16 le fw ≠ 0 ↔ fw &&& 0x0080 ≠ 0 :=
  flag_and_of_wire le fw 0x0080 7 15 hfl (by norm_num) (by norm_num) (by decide)
    (bswap16_flag_bits fw hfl).2.2.2

theorem cpu_to_be16_inj (le : Bool) (a b : Nat) (ha : a < 65536) (hb : b < 65536) :
    cpu_to_be16 le a = cpu_to_be16 le b ↔ a = b := by
  cases le
  · simp only [cpu_to_be16, Bool.false_eq_true, if_false]
    rw [Nat.mod_eq_of_lt ha, Nat.mod_eq_of_lt hb]
  · simp only [cpu_to_be16, if_true, bswap16]
    omega

theorem pptp_flag_fields_length_of_wire (le : Bool) (fw : Nat) (hfl : fw < 65536) :
    panda_flag_fields_length (cpu_to_be16 le fw) (pptp_gre_flag_fields le)
      = (if fw &&& 0x8000 ≠ 0 then 4 else 0) + (if fw &&& 0x2000 ≠ 0 then 4 else 0)
        + (if fw &&& 0x1000 ≠ 0 then 4 else 0) + (if fw &&& 0x0080 ≠ 0 then 4 else 0) := by
  unfold panda_flag_fields_length pptp_gre_flag_fields
  simp only [List.map, List.sum_cons, List.sum_nil, Nat.add_zero]
  rw [if_congr (gre_csum_of_wire le fw hfl) rfl rfl, if_congr (gre_key_of_wire le fw hfl) rfl rfl,
    if_congr (gre_seq_of_wire le fw hfl) rfl rfl, if_congr (gre_ack_of_wire le fw hfl) rfl rfl]
  omega

theorem gre_flag_fields_length_of_wire (le : Bool) (fw : Nat) (hfl : fw < 65536) :
    panda_flag_fields_length (cpu_to_be16 le fw) (gre_flag_fields le)
      = (if fw &&& 0x8000 ≠ 0 then 4 else 0) + (if fw &&& 0x2000 ≠ 0 then 4 else 0)
        + (if fw &&& 0x1000 ≠ 0 then 4 else 0) := by
  unfold panda_flag_fields_length gre_flag_fields
  simp only [List.map, List.sum_cons, List.sum_nil, Nat.add_zero]
  rw [if_congr (gre_csum_of_wire le fw hfl) rfl rfl, if_congr (gre_key_of_wire le fw hfl) rfl rfl,
    if_congr (gre_seq_of_wire le fw hfl) rfl rfl]
  omega

theorem gre_v1_accept_of_wire (le : Bool) (fw pw : Nat) (hfl : fw < 65536)
    (hpw : pw < 65536) :
    ((gre_hdr_of_wire le fw pw).protocol = GRE_PROTO_PPP le
        ∧ (gre_hdr_of_wire le fw pw).flags &&& GRE_KEY le ≠ 0)
      ↔ (pw = 0x880b ∧ fw &&& 0x2000 ≠ 0) := by
  have h1 : (gre_hdr_of_wire le fw pw).protocol = GRE_PROTO_PPP le ↔ pw = 0x880b :=
    cpu_to_be16_inj le pw 0x880b hpw (by norm_num)
  have h2 : (gre_hdr_of_wire le fw pw).flags &&& GRE_KEY le ≠ 0 ↔ fw &&& 0x2000 ≠ 0 := by
    rw [Nat.land_comm]
    exact gre_key_of_wire le fw hfl
  rw [h1, h2]

/-- C11: for every GRE header (wire flags word `fw`, wire protocol field `pw`, either host byte
order): `gre_v1_len_check` returns `PANDA_STOP_OKAY` if the protocol field is not `0x880B` or
the KEY flag (`0x2000`) is clear; otherwise it returns 4 plus 4 for each of the flags CSUM
(`0x8000`), KEY (`0x2000`), SEQ (`0x1000`), ACK (`0x0080`) that is set, a value among 8, 12,
16, 20 that is not below the `min_len` 4 of the node `panda_parse_gre_v1`. -/
theorem gre_v1_len_check_spec (c : panda_codes) (le : Bool) (fw pw : Nat) (hfl : fw < 65536)
    (hpw : pw < 65536) :
    ((pw ≠ 0x880b ∨ fw &&& 0x2000 = 0) →
        gre_v1_len_check c le (gre_hdr_of_wire le fw pw) = c.PANDA_STOP_OKAY)
      ∧ (pw = 0x880b → fw &&& 0x2000 ≠ 0 →
          ∃ n : Nat, gre_v1_len_check c le (gre_hdr_of_wire le fw pw) = (n : Int)
            ∧ n = 4 + (if fw &&& 0x8000 ≠ 0 then 4 else 0)
                + (if fw &&& 0x2000 ≠ 0 then 4 else 0)
                + (if fw &&& 0x1000 ≠ 0 then 4 else 0)
                + (if fw &&& 0x0080 ≠ 0 then 4 else 0)
            ∧ (n = 8 ∨ n = 12 ∨ n = 16 ∨ n = 20)
            ∧ (panda_parse_gre_v1 c le).min_len = 4
            ∧ (panda_parse_gre_v1 c le).min_len ≤ n) := by
  have hacc := gre_v1_accept_of_wire le fw pw hfl hpw
  constructor
  · intro h
    unfold gre_v1_len_check
    rw [if_pos]
    rw [hacc]
    intro hboth
    rcases h with h | h
    · exact h hboth.1
    · exact hboth.2 h
  · intro hp hk
    refine ⟨_, ?_, rfl, ?_, rfl, ?_⟩
    · unfold gre_v1_len_check
      rw [if_neg (not_not.mpr (hacc.mpr ⟨hp, hk⟩))]
      have hl := pptp_flag_fields_length_of_wire le fw hfl
      have hflags : (gre_hdr_of_wire le fw pw).flags = cpu_to_be16 le fw := rfl
      rw [hflags, hl]
      unfold sizeof_gre_hdr
      congr 1
      omega
    · rw [if_pos hk]
      split_ifs <;> omega
    · show 4 ≤ _
      omega

/-- Witness of C11: wire flags `0x3081` (KEY, SEQ, ACK set, version 1), protocol `0x880b`, on
a little-endian host: the length is 16. -/
theorem gre_v1_len_check_spec_witness :
    (0x3081 : Nat) < 65536 ∧ (0x880b : Nat) < 65536
      ∧ gre_v1_len_check sample_codes true (gre_hdr_of_wire true 0x3081 0x880b) = 16 := by
  refine ⟨by decide, by decide, ?_⟩
  obtain ⟨n, h1, h2, _⟩ :=
    (gre_v1_len_check_spec sample_codes true 0x3081 0x880b (by decide) (by decide)).2
      (by decide) (by decide)
  rw [h1, h2]
  decide

theorem gre_v0_len_of_wire (le : Bool) (fw pw : Nat) (hfl : fw < 65536) :
    gre_v0_len le (gre_hdr_of_wire le fw pw)
      = ((4 + (if fw &&& 0x8000 ≠ 0 then 4 else 0) + (if fw &&& 0x2000 ≠ 0 then 4 else 0)
          + (if fw &&& 0x1000 ≠ 0 then 4 else 0) : Nat) : Int) := by
  unfold gre_v0_len
  have hl := gre_flag_fields_length_of_wire le fw hfl
  have hflags : (gre_hdr_of_wire le fw pw).flags = cpu_to_be16 le fw := rfl
  rw [hflags, hl]
  unfold sizeof_gre_hdr
  congr 1
  omega

theorem and_of_and_mask (x y mask bit : Nat) (hb : mask &&& bit = bit)
    (h : x &&& mask = y &&& mask) : x &&& bit = y &&& bit := by
  have hx : x &&& bit = (x &&& mask) &&& bit := by rw [Nat.land_assoc, hb]
  have hy : y &&& bit = (y &&& mask) &&& bit := by rw [Nat.land_assoc, hb]
  rw [hx, hy, h]

/-- C12: for every 16-bit GRE flags word `fw` (as on the wire, either host byte order):
`gre_v0_len` is 4 plus the flag-field length of `fw` over the ordered list (CSUM `0x8000`, 4),
(KEY `0x2000`, 4), (SEQ `0x1000`, 4), that is 4 plus 4 times the number of the bits CSUM, KEY,
SEQ that are set; the result is one of 4, 8, 12, 16, and two flags words that agree on these
three bits (in particular two words that differ only in the ROUTING, ACK or version bits)
give the same result, whatever the protocol field and the byte order. -/
theorem gre_v0_len_spec (le : Bool) (fw pw : Nat) (hfl : fw < 65536) :
    gre_v0_len le (gre_hdr_of_wire le fw pw)
        = ((4 + panda_flag_fields_length fw
            [ { flag := 0x8000, size := 4 }, { flag := 0x2000, size := 4 },
              { flag := 0x1000, size := 4 } ] : Nat) : Int)
      ∧ gre_v0_len le (gre_hdr_of_wire le fw pw)
        = ((4 + 4 * ((if fw &&& 0x8000 ≠ 0 then 1 else 0) + (if fw &&& 0x2000 ≠ 0 then 1 else 0)
            + (if fw &&& 0x1000 ≠ 0 then 1 else 0)) : Nat) : Int)
      ∧ (gre_v0_len le (gre_hdr_of_wire le fw pw) = 4
          ∨ gre_v0_len le (gre_hdr_of_wire le fw pw) = 8
          ∨ gre_v0_len le (gre_hdr_of_wire le fw pw) = 12
          ∨ gre_v0_len le (gre_hdr_of_wire le fw pw) = 16)
      ∧ (∀ (le2 : Bool) (fw2 pw2 : Nat), fw2 < 65536 → fw2 &&& 0xB000 = fw &&& 0xB000 →
          gre_v0_len le2 (gre_hdr_of_wire le2 fw2 pw2)
            = gre_v0_len le (gre_hdr_of_wire le fw pw)) := by
  have h := gre_v0_len_of_wire le fw pw hfl
  refine ⟨?_, ?_, ?_, ?_⟩
  · rw [h]
    unfold panda_flag_fields_length
    simp only [List.map, List.sum_cons, List.sum_nil, Nat.add_zero]
    rw [Nat.land_comm 0x8000 fw, Nat.land_comm 0x2000 fw, Nat.land_comm 0x1000 fw]
    congr 1
    omega
  · rw [h]
    congr 1
    split_ifs <;> omega
  · rw [h]
    split_ifs <;> simp
  · intro le2 fw2 pw2 hfl2 hmask
    rw [h, gre_v0_len_of_wire le2 fw2 pw2 hfl2]
    rw [and_of_and_mask fw2 fw 0xB000 0x8000 (by decide) hmask,
      and_of_and_mask fw2 fw 0xB000 0x2000 (by decide) hmask,
      and_of_and_mask fw2 fw 0xB000 0x1000 (by decide) hmask]

/-- Witness of C12: wire flags `0xB000` (CSUM, KEY and SEQ set) on a little-endian host: the
length is 16. -/
theorem gre_v0_len_spec_witness :
    (0xB000 : Nat) < 65536
      ∧ gre_v0_len true (gre_hdr_of_wire true 0xB000 0x0800) = 16 := by
  refine ⟨by decide, ?_⟩
  rw [(gre_v0_len_spec true 0xB000 0x0800 (by decide)).2.1]
  decide

/-- C13: for every GRE header (wire flags word `fw`, wire protocol field `pw`, either host byte
order): `gre_len_check` returns `PANDA_STOP_OKAY` when the ROUTING flag (wire bit `0x4000`) is
set and 4 otherwise, and 4 is the `min_len` of the node `panda_parse_gre_base`; as
`PANDA_STOP_OKAY` is not 4, it returns `PANDA_STOP_OKAY` if and only if the ROUTING flag is
set; two headers with the same ROUTING bit give the same result, whatever their other flag
bits, their protocol fields and the byte order. -/
theorem gre_len_check_spec (c : panda_codes) (le : Bool) (fw pw : Nat) (hfl : fw < 65536) :
    (fw &&& 0x4000 ≠ 0 → gre_len_check c le (gre_hdr_of_wire le fw pw) = c.PANDA_STOP_OKAY)
      ∧ (fw &&& 0x4000 = 0 → gre_len_check c le (gre_hdr_of_wire le fw pw) = 4)
      ∧ (panda_parse_gre_base c le).min_len = 4
      ∧ (c.PANDA_STOP_OKAY ≠ 4 →
          (gre_len_check c le (gre_hdr_of_wire le fw pw) = c.PANDA_STOP_OKAY
            ↔ fw &&& 0x4000 ≠ 0))
      ∧ (∀ (le2 : Bool) (fw2 pw2 : Nat), fw2 < 65536 →
          (fw2 &&& 0x4000 ≠ 0 ↔ fw &&& 0x4000 ≠ 0) →
          gre_len_check c le2 (gre_hdr_of_wire le2 fw2 pw2)
            = gre_len_check c le (gre_hdr_of_wire le fw pw)) := by
  have hr := gre_routing_of_wire le fw pw hfl
  have hset : fw &&& 0x4000 ≠ 0 →
      gre_len_check c le (gre_hdr_of_wire le fw pw) = c.PANDA_STOP_OKAY := by
    intro h
    unfold gre_len_check
    rw [if_pos (hr.mpr h)]
  have hclear : ¬ fw &&& 0x4000 ≠ 0 →
      gre_len_check c le (gre_hdr_of_wire le fw pw) = 4 := by
    intro h
    unfold gre_len_check
    rw [if_neg (fun h2 => h (hr.mp h2))]
    rfl
  refine ⟨hset, fun h => hclear (not_not.mpr h), rfl, ?_, ?_⟩
  · intro hne
    constructor
    · intro h
      intro hc
      rw [hclear (not_not.mpr hc)] at h
      exact hne h.symm
    · exact hset
  · intro le2 fw2 pw2 hfl2 hiff
    have hr2 := gre_routing_of_wire le2 fw2 pw2 hfl2
    unfold gre_len_check
    by_cases h : fw &&& 0x4000 ≠ 0
    · rw [if_pos (hr.mpr h), if_pos (hr2.mpr (hiff.mpr h))]
    · rw [if_neg (fun h2 => h (hr.mp h2)), if_neg (fun h2 => h (hiff.mp (hr2.mp h2)))]

/-- Witness of C13: wire flags `0x6001` (ROUTING and KEY set, version 1) on a little-endian
host: the result is `PANDA_STOP_OKAY`. -/
theorem gre_len_check_spec_witness :
    (0x6001 : Nat) < 65536
      ∧ gre_len_check sample_codes true (gre_hdr_of_wire true 0x6001 0x880b)
          = sample_codes.PANDA_STOP_OKAY :=
  ⟨by decide, (gre_len_check_spec sample_codes true 0x6001 0x880b (by decide)).1 (by decide)⟩

theorem and_0x700 (x : Nat) : x &&& 0x700 = (x / 256 % 8) * 256 := by
  have h : x &&& (7 <<< 8) = ((x >>> 8) &&& 7) <<< 8 := by
    apply Nat.eq_of_testBit_eq
    intro i
    simp only [Nat.testBit_and, Nat.testBit_shiftLeft, Nat.testBit_shiftRight]
    by_cases hi : 8 ≤ i
    · have e : 8 + (i - 8) = i := by omega
      simp [hi, e]
    · simp [hi]
  have h7 : (7 : Nat) = 2 ^ 3 - 1 := by norm_num
  have e1 : (7 : Nat) <<< 8 = 0x700 := by decide
  rw [e1] at h
  rw [h, Nat.shiftLeft_eq, Nat.shiftRight_eq_div_pow]
  nth_rewrite 1 [h7]
  rw [Nat.and_pow_two_sub_one_eq_mod]

theorem and_7 (x : Nat) : x &&& 0x0007 = x % 8 := by
  have h7 : (0x0007 : Nat) = 2 ^ 3 - 1 := by norm_num
  rw [h7, Nat.and_pow_two_sub_one_eq_mod]

theorem gre_proto_version_of_wire (le : Bool) (fw pw : Nat) :
    gre_proto_version le (gre_hdr_of_wire le fw pw) = ((fw &&& 0x0007 : Nat) : Int) := by
  unfold gre_proto_version
  congr 1
  rw [and_7]
  cases le
  · have e : GRE_VERSION false = 0x0007 := by decide
    simp only [gre_hdr_of_wire, cpu_to_be16, ntohs, Bool.false_eq_true, if_false]
    rw [e, and_7]
    omega
  · have e : GRE_VERSION true = 0x700 := by decide
    simp only [gre_hdr_of_wire, cpu_to_be16, ntohs, if_true]
    rw [e, and_0x700]
    unfold bswap16
    have a1 : (fw % 256 * 256 + fw / 256 % 256) / 256 = fw % 256 := by omega
    rw [a1]
    have a2 : fw % 256 % 8 * 256 % 256 = 0 := by omega
    have a3 : fw % 256 % 8 * 256 / 256 = fw % 256 % 8 := by omega
    rw [a2, a3]
    omega

/-- C14: for every GRE header, `gre_proto_version` returns the low 3 bits of the flags word
read big-endian from the wire (`fw & 0x0007`), a value in 0..7, the same on a little-endian
and on a big-endian host; `gre_base_table` is the table of `gre_base_node`, and looked up in it
the value 0 selects `gre_v0_node`, 1 selects `gre_v1_node`, and every value from 2 to 7
misses. -/
theorem gre_proto_version_spec (le : Bool) (fw pw : Nat) :
    gre_proto_version le (gre_hdr_of_wire le fw pw) = ((fw &&& 0x0007 : Nat) : Int)
      ∧ 0 ≤ gre_proto_version le (gre_hdr_of_wire le fw pw)
      ∧ gre_proto_version le (gre_hdr_of_wire le fw pw) ≤ 7
      ∧ gre_proto_version true (gre_hdr_of_wire true fw pw)
          = gre_proto_version false (gre_hdr_of_wire false fw pw)
      ∧ parse_node_table parse_node.gre_base_node = some proto_table_name.gre_base_table
      ∧ find_proto_table le proto_table_name.gre_base_table = some gre_base_table
      ∧ lookup_node 0 gre_base_table = some parse_node.gre_v0_node
      ∧ lookup_node 1 gre_base_table = some parse_node.gre_v1_node
      ∧ (∀ v : Int, 2 ≤ v → v ≤ 7 → lookup_node v gre_base_table = none) := by
  have h := gre_proto_version_of_wire le fw pw
  have h7 : fw &&& 0x0007 ≤ 7 := Nat.and_le_right
  refine ⟨h, ?_, ?_, ?_, by decide, ?_, by decide, by decide, ?_⟩
  · rw [h]
    omega
  · rw [h]
    omega
  · rw [gre_proto_version_of_wire true fw pw, gre_proto_version_of_wire false fw pw]
  · cases le <;> decide
  · intro v h2 hv
    simp [lookup_node, gre_base_table]
    omega

/-! ## Walks through the protocol tables -/

/-- C15: tunneled ping.  Following the tables of the big parser from `ether_node` with the keys
EtherType `0x0800`, IP version 4, protocol `0x2f`, GRE version 0, GRE protocol `0x0800`, IP
version 4, protocol `0x01` visits `ether_node`, `ipv4_check_node`, `ipv4_node`,
`gre_base_node`, `gre_v0_node`, `ipv4_check_node`, `ipv4_node` and ends at the leaf
`icmpv4_node`; the two GRE keys are those that `gre_proto_version` and `gre_v0_proto` return
for the GRE header with flags `0x0000` and protocol `0x0800`; for that header `gre_len_check`
and `gre_v0_len` both give 4; `gre_v0_node` is the only encapsulation node on the path, so
`panda_encap_layer` runs once and, with `max_encaps = 4` and `max_frame_num = 2`, from depth 0
and frame index 0 the walk keeps `PANDA_OKAY` and ends with depth 1 and frame index 1 (the
second frame). -/
theorem tunneled_ping_walk (c : panda_codes) (le : Bool) (frame_size frame : Nat) :
    follow le parse_node.ether_node
        [be16_key le 0x0800, 4, 0x2f, 0, be16_key le 0x0800, 4, 0x01]
        = some [parse_node.ether_node, parse_node.ipv4_check_node, parse_node.ipv4_node,
            parse_node.gre_base_node, parse_node.gre_v0_node, parse_node.ipv4_check_node,
            parse_node.ipv4_node, parse_node.icmpv4_node]
      ∧ is_leaf parse_node.icmpv4_node = true
      ∧ gre_proto_version le (gre_hdr_of_wire le 0x0000 0x0800) = 0
      ∧ gre_v0_proto (gre_hdr_of_wire le 0x0000 0x0800) = be16_key le 0x0800
      ∧ gre_len_check c le (gre_hdr_of_wire le 0x0000 0x0800) = 4
      ∧ gre_v0_len le (gre_hdr_of_wire le 0x0000 0x0800) = 4
      ∧ [parse_node.ether_node, parse_node.ipv4_check_node, parse_node.ipv4_node,
            parse_node.gre_base_node, parse_node.gre_v0_node, parse_node.ipv4_check_node,
            parse_node.ipv4_node, parse_node.icmpv4_node].map (parse_node_encap c le)
          = [some false, some false, some false, some false, some true, some false,
              some false, some false]
      ∧ cross_encaps c le 4
          [parse_node.ether_node, parse_node.ipv4_check_node, parse_node.ipv4_node,
            parse_node.gre_base_node, parse_node.gre_v0_node, parse_node.ipv4_check_node,
            parse_node.ipv4_node, parse_node.icmpv4_node]
          ({ encaps := 0, max_frame_num := 2, frame_size := frame_size }, frame, 0)
          = (c.PANDA_OKAY, { encaps := 1, max_frame_num := 2, frame_size := frame_size },
              frame + frame_size, 1) := by
  refine ⟨?_, by decide, ?_, rfl, ?_, ?_, rfl, ?_⟩
  · cases le <;> decide
  · cases le <;> decide
  · exact (gre_len_check_spec c le 0x0000 0x0800 (by decide)).2.1 (by decide)
  · cases le <;> decide
  · simp [cross_encaps, parse_node_encap, panda_parse_gre_base, panda_parse_gre_v0,
      panda_encap_layer]

/-- C16: following the dispatch tables of the big parser from `ether_node` by exact key match,
the keys (EtherType `0x0800`, IP version 4, protocol `0x06`) lead through `ipv4_check_node` and
`ipv4_node` to the leaf `tcp_node`, and the keys (EtherType `0x86dd`, IP version 6, next header
`0x11`) lead through `ipv6_check_node` and `ipv6_node` to the leaf `ports_node`; an IP version
that does not match the EtherType (6 after `0x0800`, 4 after `0x86dd`) misses the check
table. -/
theorem ether_ip_walks (le : Bool) :
    follow le parse_node.ether_node [be16_key le 0x0800, 4, 0x06]
        = some [parse_node.ether_node, parse_node.ipv4_check_node, parse_node.ipv4_node,
            parse_node.tcp_node]
      ∧ is_leaf parse_node.tcp_node = true
      ∧ follow le parse_node.ether_node [be16_key le 0x86dd, 6, 0x11]
        = some [parse_node.ether_node, parse_node.ipv6_check_node, parse_node.ipv6_node,
            parse_node.ports_node]
      ∧ is_leaf parse_node.ports_node = true
      ∧ lookup_node 6 ipv4_check_table = none
      ∧ lookup_node 4 ipv6_check_table = none
      ∧ follow le parse_node.ether_node [be16_key le 0x0800, 6] = none
      ∧ follow le parse_node.ether_node [be16_key le 0x86dd, 4] = none := by
  cases le <;> decide

/-- C17, counterexample: `batman_node` is defined with `PANDA_MAKE_PARSE_NODE` and the
dispatch table `ether_table`; it is not a leaf. -/
theorem batman_node_not_leaf :
    is_leaf parse_node.batman_node = false
      ∧ parse_node_table parse_node.batman_node = some proto_table_name.ether_table := by
  decide

/-- C17 (amended): in the big parser each of the nodes `icmpv4_node`, `icmpv6_node`,
`arp_node`, `rarp_node`, `tipc_node`, `fcoe_node` and `igmp_node` is a leaf: it is defined
without a dispatch table, so no key leads further from it.  The node `batman_node` is defined
with the dispatch table `ether_table`: from it the walk continues by EtherType, for instance
to `ipv4_check_node` for `0x0800`. -/
theorem big_parser_leaves (le : Bool) :
    (∀ n ∈ [parse_node.icmpv4_node, parse_node.icmpv6_node, parse_node.arp_node,
          parse_node.rarp_node, parse_node.tipc_node, parse_node.fcoe_node,
          parse_node.igmp_node],
        is_leaf n = true ∧ parse_node_table n = none ∧ ∀ key : Int, next_node le n key = none)
      ∧ parse_node_table parse_node.batman_node = some proto_table_name.ether_table
      ∧ next_node le parse_node.batman_node (be16_key le 0x0800)
          = some parse_node.ipv4_check_node := by
  refine ⟨?_, by decide, by cases le <;> decide⟩
  intro n hn
  have h : is_leaf n = true ∧ parse_node_table n = none := by
    revert n
    decide
  refine ⟨h.1, h.2, fun key => ?_⟩
  unfold next_node
  rw [h.2]
  rfl

/-- C18: the declarations of the big parser form a closed graph: every target of an entry of
every protocol table is a parse node with a definition in the file, every protocol table named
by a parse node definition is defined, the TLV table named by `tcp_node` is defined and every
target of `tcp_tlv_table` is a TLV parse node with a definition, and the roots of the two
registered parsers, `ether_node` and `ip_overlay_node`, are parse nodes with a definition. -/
theorem big_parser_closed (le : Bool) :
    (∀ t ∈ proto_tables le, ∀ e ∈ t.2, (find_parse_node_def e.node).isSome = true)
      ∧ (∀ d ∈ parse_node_defs, ∀ t ∈ d.table, (find_proto_table le t).isSome = true)
      ∧ (∀ d ∈ parse_node_defs, ∀ t ∈ d.tlv_table, t ∈ tlv_tables.map (fun e => e.1))
      ∧ (∀ t ∈ tlv_tables, ∀ e ∈ t.2,
          e.node ∈ tlv_parse_node_defs.map (fun d => d.node))
      ∧ parser_defs.map (fun p => p.root) = [parse_node.ether_node, parse_node.ip_overlay_node]
      ∧ (∀ p ∈ parser_defs, (find_parse_node_def p.root).isSome = true) := by
  cases le <;> decide

/-! ## The compiler -/

theorem substr_suffix (s : List Char) (k : Nat) (hk : k ≤ s.length) :
    substr s (max (size_t_sub s.length k) 0) = some (s.drop (s.length - k)) := by
  unfold substr size_t_sub
  rw [if_pos hk, Nat.max_eq_left (Nat.zero_le _), if_neg (by omega)]

theorem substr_eq_iff_suffix (s ext : List Char) (hk : ext.length ≤ s.length) :
    substr s (max (size_t_sub s.length ext.length) 0) = some ext ↔ ext <:+ s := by
  rw [substr_suffix s ext.length hk, List.suffix_iff_eq_drop]
  constructor
  · intro h
    exact (Option.some.inj h).symm
  · intro h
    rw [← h]

theorem parse_file_roots (run : build_run) :
    (parse_file run).vertices = run.vertices ∧ (parse_file run).roots = run.roots := by
  unfold parse_file
  cases run.raised with
  | none => exact ⟨rfl, rfl⟩
  | some e => cases e <;> exact ⟨rfl, rfl⟩

theorem main_three_args (prog src output : List Char) (build : List Char → build_run) :
    main [prog, src, output] build =
      if (build src).roots = [] then main_outcome.exit 0 []
      else
        match substr output (max (size_t_sub output.length 4) 0) with
        | none => main_outcome.uncaught []
        | some ext =>
          if ext = ".dot".toList then main_outcome.exit 0 [output_event.dot_file output]
          else
            match substr output (max (size_t_sub output.length 2) 0) with
            | none => main_outcome.uncaught []
            | some ext =>
              if ext = ".c".toList then
                main_outcome.exit 0
                  [output_event.c_file output
                    (substr_count output (size_t_sub output.length 2) ++ ".h".toList)]
              else main_outcome.exit 1 [] := by
  unfold main
  simp only [List.length_cons, List.length_nil, List.getD_cons_succ, List.getD_cons_zero,
    (parse_file_roots (build src)).2, List.isEmpty_iff]
  by_cases h : (build src).roots = []
  · simp [h]
  · simp [h]

/-- C19, counterexample: the build of `parser.c` raises an exception after a root was
registered and the output name is `graph.dot`: `main` writes the Graphviz file from the
partially built graph and exits with status 0. -/
theorem main_after_build_error :
    main ["compiler".toList, "parser.c".toList, "graph.dot".toList]
        (fun _ => { vertices := ["ether_node"],
                    roots := [{ name := "panda_parser_big_ether", vertex := 0, flag := true }],
                    raised := some build_exception.std_exception })
      = main_outcome.exit 0 [output_event.dot_file "graph.dot".toList] := by
  decide

/-- C19 (amended): whenever building the graph raises an exception inside `parse_file`, one of
its handlers writes a diagnostic and `parse_file` returns normally, leaving the graph and the
roots as built so far; `main` then continues exactly as after a build without error that
produced the same graph and roots, so neither its exit status nor its output files depend on
the error: with no root registered it exits with status 0 and writes no file, and with a root
registered and an output name ending in `.dot` it writes the Graphviz file and exits with
status 0. -/
theorem main_ignores_build_error (argv : List (List Char)) (build : List Char → build_run) :
    (∀ run : build_run, (parse_file run).vertices = run.vertices
        ∧ (parse_file run).roots = run.roots
        ∧ (run.raised ≠ none → (parse_file run).diagnostics.length = 1))
      ∧ main argv build = main argv (fun f => { build f with raised := none })
      ∧ (∀ prog src output : List Char, (build src).roots = [] →
          main [prog, src, output] build = main_outcome.exit 0 []
            ∧ main [prog, src] build = main_outcome.exit 0 [])
      ∧ (∀ prog src output : List Char, (build src).roots ≠ [] →
          ".dot".toList <:+ output →
          main [prog, src, output] build
            = main_outcome.exit 0 [output_event.dot_file output]) := by
  refine ⟨?_, ?_, ?_, ?_⟩
  · intro run
    refine ⟨(parse_file_roots run).1, (parse_file_roots run).2, ?_⟩
    intro h
    unfold parse_file
    cases hr : run.raised with
    | none => exact absurd hr h
    | some e => cases e <;> rfl
  · unfold main
    simp only [(parse_file_roots _).2]
  · intro prog src output h
    constructor
    · rw [main_three_args, if_pos h]
    · unfold main
      simp [(parse_file_roots (build src)).2, h]
  · intro prog src output h hs
    have hlen : 4 ≤ output.length := by
      have := List.IsSuffix.length_le hs
      simpa using this
    have hsub := (substr_eq_iff_suffix output ".dot".toList hlen).mpr hs
    have e4 : ".dot".toList.length = 4 := by decide
    rw [e4] at hsub
    rw [main_three_args, if_neg h, hsub]
    simp

/-- C20, counterexample: the source registers no root and the output name is `out.txt`, which
ends in neither `.dot` nor `.c`: `main` exits with status 0. -/
theorem main_unknown_extension_no_root :
    ¬ ".dot".toList <:+ "out.txt".toList ∧ ¬ ".c".toList <:+ "out.txt".toList
      ∧ main ["compiler".toList, "parser.c".toList, "out.txt".toList]
          (fun _ => { vertices := [], roots := [], raised := none })
        = main_outcome.exit 0 [] := by
  decide

/-- C20 (amended): for every invocation `compiler <source> <output>` whose output name has at
least 4 characters and ends in neither `.dot` nor `.c`: if the source registers at least one
parser root, `main` exits with status 1 and writes no file; if the source registers no root,
`main` exits with status 0, whatever the output name. -/
theorem main_unknown_extension (prog src output : List Char) (build : List Char → build_run)
    (h4 : 4 ≤ output.length) (hdot : ¬ ".dot".toList <:+ output)
    (hc : ¬ ".c".toList <:+ output) :
    ((build src).roots ≠ [] → main [prog, src, output] build = main_outcome.exit 1 [])
      ∧ (∀ output2 : List Char, (build src).roots = [] →
          main [prog, src, output2] build = main_outcome.exit 0 []) := by
  constructor
  · intro h
    have h1 := substr_suffix output 4 h4
    have h2 := substr_suffix output 2 (by omega)
    have n1 : ¬ List.drop (output.length - 4) output = ".dot".toList := by
      intro e
      apply hdot
      rw [List.suffix_iff_eq_drop]
      exact e.symm
    have n2 : ¬ List.drop (output.length - 2) output = ".c".toList := by
      intro e
      apply hc
      rw [List.suffix_iff_eq_drop]
      exact e.symm
    rw [main_three_args, if_neg h, h1]
    simp only [n1, if_false, h2, n2]
  · intro output2 h
    rw [main_three_args, if_pos h]

/-- Witness of C20 (amended): output name `out.txt`, one root registered. -/
theorem main_unknown_extension_witness :
    4 ≤ "out.txt".toList.length ∧ ¬ ".dot".toList <:+ "out.txt".toList
      ∧ ¬ ".c".toList <:+ "out.txt".toList
      ∧ main ["compiler".toList, "parser.c".toList, "out.txt".toList]
          (fun _ => { vertices := ["ether_node"],
                      roots := [{ name := "panda_parser_big_ether", vertex := 0, flag := true }],
                      raised := none })
        = main_outcome.exit 1 [] :=
  ⟨by decide, by decide, by decide,
    (main_unknown_extension "compiler".toList "parser.c".toList "out.txt".toList
      (fun _ => { vertices := ["ether_node"],
                  roots := [{ name := "panda_parser_big_ether", vertex := 0, flag := true }],
                  raised := none })
      (by decide) (by decide) (by decide)).1 (by decide)⟩

theorem substr_short (s : List Char) (k : Nat) (hs : s.length < k) (hk : k < SIZE_MOD) :
    max (size_t_sub s.length k) 0 = s.length + SIZE_MOD - k
      ∧ substr s (max (size_t_sub s.length k) 0) = none := by
  unfold substr size_t_sub
  rw [if_neg (by omega), Nat.max_eq_left (Nat.zero_le _)]
  refine ⟨rfl, ?_⟩
  rw [if_pos]
  omega

theorem not_dot_of_c (output : List Char) (hc : ".c".toList <:+ output) :
    ¬ ".dot".toList <:+ output := by
  intro hd
  have h := List.suffix_of_suffix_length_le hc hd (by decide)
  revert h
  decide

/-- C21 (refuted on the code): with at least one root registered and an output name
`stem ++ ".c"`: when the stem has at least 2 characters `main` takes the C branch and names the
header `stem ++ ".h"`; when the stem is shorter (output names such as `a.c`, of fewer than 4
characters) the start index `max(size - 4, 0)` is computed in `size_t`, where `size - 4` wraps
around to `size + 2 ^ 64 - 4`, `substr` throws and the exception leaves `main`: no branch is
selected and no file is written.  Every output name `stem ++ ".dot"` takes the Graphviz
branch. -/
theorem main_c_and_dot_extension (prog src stem : List Char)
    (build : List Char → build_run) (hroot : (build src).roots ≠ []) :
    (2 ≤ stem.length →
        main [prog, src, stem ++ ".c".toList] build
          = main_outcome.exit 0
              [output_event.c_file (stem ++ ".c".toList) (stem ++ ".h".toList)])
      ∧ (stem.length < 2 →
          max (size_t_sub (stem ++ ".c".toList).length 4) 0
              = (stem ++ ".c".toList).length + 2 ^ 64 - 4
            ∧ main [prog, src, stem ++ ".c".toList] build = main_outcome.uncaught [])
      ∧ main [prog, src, stem ++ ".dot".toList] build
          = main_outcome.exit 0 [output_event.dot_file (stem ++ ".dot".toList)] := by
  have hlc : (stem ++ ".c".toList).length = stem.length + 2 := by
    rw [List.length_append]
    rfl
  have hld : (stem ++ ".dot".toList).length = stem.length + 4 := by
    rw [List.length_append]
    rfl
  have e2 : ".c".toList.length = 2 := by decide
  have e4 : ".dot".toList.length = 4 := by decide
  refine ⟨?_, ?_, ?_⟩
  · intro h2
    have hsc : ".c".toList <:+ stem ++ ".c".toList := List.suffix_append _ _
    have h4 := substr_suffix (stem ++ ".c".toList) 4 (by omega)
    have n4 : ¬ List.drop ((stem ++ ".c".toList).length - 4) (stem ++ ".c".toList)
        = ".dot".toList := by
      intro e
      apply not_dot_of_c _ hsc
      rw [List.suffix_iff_eq_drop]
      exact e.symm
    have h2c := (substr_eq_iff_suffix (stem ++ ".c".toList) ".c".toList (by omega)).mpr hsc
    rw [e2] at h2c
    have hsub : size_t_sub (stem ++ ".c".toList).length 2 = stem.length := by
      unfold size_t_sub
      rw [if_pos (by omega)]
      omega
    rw [main_three_args, if_neg hroot, h4]
    simp only [n4, if_false, h2c, if_true]
    simp only [hsub, substr_count, List.take_left]
  · intro h2
    have hs := substr_short (stem ++ ".c".toList) 4 (by omega) (by decide)
    constructor
    · exact hs.1
    · rw [main_three_args, if_neg hroot, hs.2]
  · have hsd : ".dot".toList <:+ stem ++ ".dot".toList := List.suffix_append _ _
    have h4 := (substr_eq_iff_suffix (stem ++ ".dot".toList) ".dot".toList (by omega)).mpr hsd
    rw [e4] at h4
    rw [main_three_args, if_neg hroot, h4]
    simp

/-- Witness of C21: one root registered and the output name `a.c`: an exception leaves `main`
and no file is written. -/
theorem main_c_and_dot_extension_witness :
    ({ vertices := ["ether_node"],
       roots := [{ name := "panda_parser_big_ether", vertex := 0, flag := true }],
       raised := none } : build_run).roots ≠ []
      ∧ main ["compiler".toList, "parser.c".toList, "a.c".toList]
          (fun _ => { vertices := ["ether_node"],
                      roots := [{ name := "panda_parser_big_ether", vertex := 0, flag := true }],
                      raised := none })
        = main_outcome.uncaught [] :=
  ⟨by decide,
    ((main_c_and_dot_extension "compiler".toList "parser.c".toList "a".toList
      (fun _ => { vertices := ["ether_node"],
                  roots := [{ name := "panda_parser_big_ether", vertex := 0, flag := true }],
                  raised := none })
      (by decide)).2.1 (by decide)).2⟩

/-! ## TLV parsing -/

theorem tlv_extract_and_handle_ret {B F C : Type} (c : panda_codes)
    (ops : panda_parse_tlv_node_ops B F C) (cp : B) (frame : F) (tlv_ctrl : C) :
    (tlv_extract_and_handle c ops cp frame tlv_ctrl).ret = c.PANDA_OKAY := rfl

theorem panda_parse_tlv_no_check {B F C : Type} (c : panda_codes) (fuel : Nat)
    (parse_node : panda_parse_tlvs_node B F C) (node : panda_parse_tlv_node B F C) (cp : B)
    (frame : F) (tlv_ctrl : C) (h : node.tlv_ops.check_length = none) :
    panda_parse_tlv c (fuel + 1) parse_node node cp frame tlv_ctrl
      = some (tlv_extract_and_handle c node.tlv_ops cp frame tlv_ctrl) := by
  unfold panda_parse_tlv
  simp only [h]

theorem panda_parse_tlv_accept {B F C : Type} (c : panda_codes) (fuel : Nat)
    (parse_node : panda_parse_tlvs_node B F C) (node : panda_parse_tlv_node B F C) (cp : B)
    (frame : F) (tlv_ctrl : C) (chk : B → F → Int) (h : node.tlv_ops.check_length = some chk)
    (hok : chk cp frame = c.PANDA_OKAY) :
    panda_parse_tlv c (fuel + 1) parse_node node cp frame tlv_ctrl
      = some (tlv_extract_and_handle c node.tlv_ops cp frame tlv_ctrl) := by
  unfold panda_parse_tlv
  simp only [h, hok, ne_eq, not_true_eq_false, if_false]

theorem panda_parse_tlv_reject_none {B F C : Type} (c : panda_codes) (fuel : Nat)
    (parse_node : panda_parse_tlvs_node B F C) (node : panda_parse_tlv_node B F C) (cp : B)
    (frame : F) (tlv_ctrl : C) (chk : B → F → Int) (h : node.tlv_ops.check_length = some chk)
    (hrej : chk cp frame ≠ c.PANDA_OKAY) (hw : parse_node.tlv_wildcard_node = none) :
    panda_parse_tlv c (fuel + 1) parse_node node cp frame tlv_ctrl
      = some { ret := parse_node.unknown_tlv_type_ret, frame := frame, calls := [] } := by
  unfold panda_parse_tlv
  simp only [h, hw]
  rw [if_pos hrej]

theorem panda_parse_tlv_reject_some {B F C : Type} (c : panda_codes) (fuel : Nat)
    (parse_node : panda_parse_tlvs_node B F C) (node wildcard : panda_parse_tlv_node B F C)
    (cp : B) (frame : F) (tlv_ctrl : C) (chk : B → F → Int)
    (h : node.tlv_ops.check_length = some chk) (hrej : chk cp frame ≠ c.PANDA_OKAY)
    (hw : parse_node.tlv_wildcard_node = some wildcard) :
    panda_parse_tlv c (fuel + 1) parse_node node cp frame tlv_ctrl
      = panda_parse_tlv c fuel parse_node wildcard cp frame tlv_ctrl := by
  conv => lhs; unfold panda_parse_tlv
  simp only [h, hw]
  rw [if_pos hrej]

/-- C22, counterexample: the parent declares no wildcard node and has
`unknown_tlv_type_ret = -6`; the `check_length` of the node returns the stop code `-7`:
`panda_parse_tlv` returns `-6`, not `-7` (no operation is called and the frame is
unchanged). -/
theorem panda_parse_tlv_reject_counterexample :
    panda_parse_tlv sample_codes 1 { unknown_tlv_type_ret := -6 } (sample_tlv_node (-7)) () 10 ()
        = some { ret := -6, frame := 10, calls := [] }
      ∧ panda_parse_tlv sample_codes 1 { unknown_tlv_type_ret := -6 } (sample_tlv_node (-7))
          () 10 ()
        ≠ some { ret := -7, frame := 10, calls := [] } := by
  decide

/-- C22 (amended): for every TLV parse node with a `check_length` operation and every TLV: if
`check_length` returns a value other than `PANDA_OKAY` and the parent TLVs node declares no
wildcard node, `panda_parse_tlv` returns the `unknown_tlv_type_ret` of the parent, whatever
stop code `check_length` returned; neither `extract_metadata` nor `handle_tlv` is called and
the frame is left unchanged. -/
theorem panda_parse_tlv_reject_no_wildcard {B F C : Type} (c : panda_codes) (fuel : Nat)
    (parse_node : panda_parse_tlvs_node B F C) (node : panda_parse_tlv_node B F C) (cp : B)
    (frame : F) (tlv_ctrl : C) (chk : B → F → Int) (h : node.tlv_ops.check_length = some chk)
    (hrej : chk cp frame ≠ c.PANDA_OKAY) (hw : parse_node.tlv_wildcard_node = none) :
    panda_parse_tlv c (fuel + 1) parse_node node cp frame tlv_ctrl
      = some { ret := parse_node.unknown_tlv_type_ret, frame := frame, calls := [] } :=
  panda_parse_tlv_reject_none c fuel parse_node node cp frame tlv_ctrl chk h hrej hw

/-- Witness of C22 (amended): `check_length` returns `-7`, no wildcard node,
`unknown_tlv_type_ret = -6`. -/
theorem panda_parse_tlv_reject_no_wildcard_witness :
    (sample_tlv_node (-7)).tlv_ops.check_length = some (fun _ _ => -7)
      ∧ (-7 : Int) ≠ sample_codes.PANDA_OKAY
      ∧ panda_parse_tlv sample_codes 1 { unknown_tlv_type_ret := -6 } (sample_tlv_node (-7))
          () 10 ()
        = some { ret := -6, frame := 10, calls := [] } :=
  ⟨rfl, by decide,
    panda_parse_tlv_reject_no_wildcard sample_codes 0 { unknown_tlv_type_ret := -6 }
      (sample_tlv_node (-7)) () 10 () (fun _ _ => -7) rfl (by decide) rfl⟩

theorem tlv_extract_and_handle_calls {B F C : Type} (c : panda_codes)
    (ops : panda_parse_tlv_node_ops B F C) (cp : B) (frame : F) (tlv_ctrl : C) :
    (tlv_extract_and_handle c ops cp frame tlv_ctrl).calls
        = (if ops.extract_metadata.isSome then [tlv_call.extract_metadata] else [])
          ++ (if ops.handle_tlv.isSome then [tlv_call.handle_tlv] else [])
      ∧ (∀ f h, ops.extract_metadata = some f → ops.handle_tlv = some h →
          (tlv_extract_and_handle c ops cp frame tlv_ctrl).calls
              = [tlv_call.extract_metadata, tlv_call.handle_tlv]
            ∧ (tlv_extract_and_handle c ops cp frame tlv_ctrl).frame
              = (h cp (f cp frame tlv_ctrl) tlv_ctrl).2) := by
  unfold tlv_extract_and_handle
  constructor
  · cases ops.extract_metadata <;> cases ops.handle_tlv <;> rfl
  · intro f h hf hh
    simp [hf, hh]

/-- C23: for every TLV parse node whose `check_length` rejects the TLV (returns a value other
than `PANDA_OKAY`) while the parent TLVs node declares a wildcard node, the outcome of
`panda_parse_tlv` (returned value, frame and the list of calls made through TLV operations)
is the outcome of `panda_parse_tlv` applied to the wildcard node with the same TLV bytes,
frame and control data, so the rejecting node adds no call of its own `extract_metadata` or
`handle_tlv` (when the wildcard node has no `check_length` or accepts the TLV, the outcome is
that of the operations of the wildcard node); when `check_length` is absent or returns
`PANDA_OKAY`, the call returns `PANDA_OKAY` after calling `extract_metadata` and then
`handle_tlv` of the node, each once if it is present (both present: exactly these two calls,
`handle_tlv` seeing the frame left by `extract_metadata`). -/
theorem panda_parse_tlv_wildcard_or_run {B F C : Type} (c : panda_codes) (fuel : Nat)
    (parse_node : panda_parse_tlvs_node B F C) (node : panda_parse_tlv_node B F C) (cp : B)
    (frame : F) (tlv_ctrl : C) :
    (∀ (chk : B → F → Int) (wildcard : panda_parse_tlv_node B F C),
        node.tlv_ops.check_length = some chk → chk cp frame ≠ c.PANDA_OKAY →
        parse_node.tlv_wildcard_node = some wildcard →
        panda_parse_tlv c (fuel + 1) parse_node node cp frame tlv_ctrl
          = panda_parse_tlv c fuel parse_node wildcard cp frame tlv_ctrl)
      ∧ (∀ (chk : B → F → Int) (wildcard : panda_parse_tlv_node B F C),
          node.tlv_ops.check_length = some chk → chk cp frame ≠ c.PANDA_OKAY →
          parse_node.tlv_wildcard_node = some wildcard →
          (wildcard.tlv_ops.check_length = none
            ∨ ∃ chkw, wildcard.tlv_ops.check_length = some chkw
                ∧ chkw cp frame = c.PANDA_OKAY) →
          panda_parse_tlv c (fuel + 2) parse_node node cp frame tlv_ctrl
            = some (tlv_extract_and_handle c wildcard.tlv_ops cp frame tlv_ctrl))
      ∧ ((node.tlv_ops.check_length = none
            ∨ ∃ chk, node.tlv_ops.check_length = some chk ∧ chk cp frame = c.PANDA_OKAY) →
          ∃ r : tlv_outcome F,
            panda_parse_tlv c (fuel + 1) parse_node node cp frame tlv_ctrl = some r
              ∧ r.ret = c.PANDA_OKAY
              ∧ r.calls
                = (if node.tlv_ops.extract_metadata.isSome then [tlv_call.extract_metadata]
                    else [])
                  ++ (if node.tlv_ops.handle_tlv.isSome then [tlv_call.handle_tlv] else [])
              ∧ (∀ f h, node.tlv_ops.extract_metadata = some f →
                  node.tlv_ops.handle_tlv = some h →
                  r.calls = [tlv_call.extract_metadata, tlv_call.handle_tlv]
                    ∧ r.frame = (h cp (f cp frame tlv_ctrl) tlv_ctrl).2)) := by
  refine ⟨?_, ?_, ?_⟩
  · intro chk wildcard h hrej hw
    exact panda_parse_tlv_reject_some c fuel parse_node node wildcard cp frame tlv_ctrl chk h
      hrej hw
  · intro chk wildcard h hrej hw hacc
    rw [panda_parse_tlv_reject_some c (fuel + 1) parse_node node wildcard cp frame tlv_ctrl chk
      h hrej hw]
    rcases hacc with hn | ⟨chkw, hcw, hokw⟩
    · exact panda_parse_tlv_no_check c fuel parse_node wildcard cp frame tlv_ctrl hn
    · exact panda_parse_tlv_accept c fuel parse_node wildcard cp frame tlv_ctrl chkw hcw hokw
  · intro h
    have hrun : panda_parse_tlv c (fuel + 1) parse_node node cp frame tlv_ctrl
        = some (tlv_extract_and_handle c node.tlv_ops cp frame tlv_ctrl) := by
      rcases h with h | ⟨chk, h, hok⟩
      · exact panda_parse_tlv_no_check c fuel parse_node node cp frame tlv_ctrl h
      · exact panda_parse_tlv_accept c fuel parse_node node cp frame tlv_ctrl chk h hok
    have hc := tlv_extract_and_handle_calls c node.tlv_ops cp frame tlv_ctrl
    exact ⟨_, hrun, rfl, hc.1, hc.2⟩

/-- C25: whenever the wildcard TLV node, if one is declared, has no `check_length` or its
`check_length` accepts the TLV, `panda_parse_tlv` terminates: two nested calls are enough (it
redirects to the wildcard node at most once), a larger bound gives the same outcome, and the
value returned is `PANDA_OKAY` or the `unknown_tlv_type_ret` of the parent: it is
`unknown_tlv_type_ret` when the node rejects the TLV and no wildcard node is declared, and
`PANDA_OKAY` in every other case, so it is fixed by `check_length` and the parent alone and the
value returned by `handle_tlv` has no influence on it. -/
theorem panda_parse_tlv_total {B F C : Type} (c : panda_codes) (fuel : Nat)
    (parse_node : panda_parse_tlvs_node B F C) (node : panda_parse_tlv_node B F C) (cp : B)
    (frame : F) (tlv_ctrl : C)
    (hw : ∀ wildcard, parse_node.tlv_wildcard_node = some wildcard →
      wildcard.tlv_ops.check_length = none
        ∨ ∃ chk, wildcard.tlv_ops.check_length = some chk ∧ chk cp frame = c.PANDA_OKAY) :
    ∃ r : tlv_outcome F,
      panda_parse_tlv c 2 parse_node node cp frame tlv_ctrl = some r
        ∧ panda_parse_tlv c (fuel + 2) parse_node node cp frame tlv_ctrl = some r
        ∧ (r.ret = c.PANDA_OKAY ∨ r.ret = parse_node.unknown_tlv_type_ret)
        ∧ ((∃ chk, node.tlv_ops.check_length = some chk ∧ chk cp frame ≠ c.PANDA_OKAY)
              ∧ parse_node.tlv_wildcard_node = none →
            r.ret = parse_node.unknown_tlv_type_ret)
        ∧ (¬ ((∃ chk, node.tlv_ops.check_length = some chk ∧ chk cp frame ≠ c.PANDA_OKAY)
              ∧ parse_node.tlv_wildcard_node = none) →
            r.ret = c.PANDA_OKAY) := by
  cases hchk : node.tlv_ops.check_length with
  | none =>
    refine ⟨_, panda_parse_tlv_no_check c 1 parse_node node cp frame tlv_ctrl hchk,
      panda_parse_tlv_no_check c (fuel + 1) parse_node node cp frame tlv_ctrl hchk,
      Or.inl rfl, ?_, fun _ => rfl⟩
    rintro ⟨⟨chk, h, _⟩, _⟩
    exact Option.noConfusion h
  | some chk =>
    by_cases hok : chk cp frame = c.PANDA_OKAY
    · refine ⟨_, panda_parse_tlv_accept c 1 parse_node node cp frame tlv_ctrl chk hchk hok,
        panda_parse_tlv_accept c (fuel + 1) parse_node node cp frame tlv_ctrl chk hchk hok,
        Or.inl rfl, ?_, fun _ => rfl⟩
      rintro ⟨⟨chk2, h, hrej⟩, _⟩
      have e : chk = chk2 := Option.some.inj h
      subst e
      exact absurd hok hrej
    · cases hwc : parse_node.tlv_wildcard_node with
      | none =>
        refine ⟨_,
          panda_parse_tlv_reject_none c 1 parse_node node cp frame tlv_ctrl chk hchk hok hwc,
          panda_parse_tlv_reject_none c (fuel + 1) parse_node node cp frame tlv_ctrl chk hchk
            hok hwc,
          Or.inr rfl, fun _ => rfl, ?_⟩
        intro hn
        exact absurd ⟨⟨chk, rfl, hok⟩, rfl⟩ hn
      | some wildcard =>
        have hrun : ∀ n : Nat, panda_parse_tlv c (n + 1) parse_node wildcard cp frame tlv_ctrl
            = some (tlv_extract_and_handle c wildcard.tlv_ops cp frame tlv_ctrl) := by
          intro n
          rcases hw wildcard hwc with h | ⟨chkw, h, hokw⟩
          · exact panda_parse_tlv_no_check c n parse_node wildcard cp frame tlv_ctrl h
          · exact panda_parse_tlv_accept c n parse_node wildcard cp frame tlv_ctrl chkw h hokw
        refine ⟨tlv_extract_and_handle c wildcard.tlv_ops cp frame tlv_ctrl, ?_, ?_,
          Or.inl rfl, ?_, fun _ => rfl⟩
        · rw [panda_parse_tlv_reject_some c 1 parse_node node wildcard cp frame tlv_ctrl chk
            hchk hok hwc]
          exact hrun 0
        · rw [panda_parse_tlv_reject_some c (fuel + 1) parse_node node wildcard cp frame
            tlv_ctrl chk hchk hok hwc]
          exact hrun fuel
        · rintro ⟨_, h⟩
          exact Option.noConfusion h

/-- Witness of C25: the node rejects the TLV, the wildcard node accepts it: the call returns
`PANDA_OKAY` after the two operations of the wildcard node. -/
theorem panda_parse_tlv_total_witness :
    (∃ r : tlv_outcome Nat,
      panda_parse_tlv sample_codes 2
          { unknown_tlv_type_ret := -6, tlv_wildcard_node := some (sample_tlv_node 0) }
          (sample_tlv_node (-7)) () 10 () = some r
        ∧ r.ret = sample_codes.PANDA_OKAY) := by
  obtain ⟨r, h1, _, _, _, h5⟩ :=
    panda_parse_tlv_total sample_codes 0
      { unknown_tlv_type_ret := -6, tlv_wildcard_node := some (sample_tlv_node 0) }
      (sample_tlv_node (-7)) () 10 ()
      (fun wildcard hwc => Or.inr ⟨fun _ _ => 0, by
        have e : sample_tlv_node 0 = wildcard := Option.some.inj hwc
        subst e
        exact ⟨rfl, rfl⟩⟩)
  refine ⟨r, h1, h5 ?_⟩
  rintro ⟨_, h⟩
  exact Option.noConfusion h

/-! ## Keys of the tables -/

theorem find_key_eq_some_iff {α : Type} (key : α → Int) (k : Int) (l : List α)
    (hnd : (l.map key).Nodup) (a : α) :
    l.find? (fun e => decide (key e = k)) = some a ↔ a ∈ l ∧ key a = k := by
  constructor
  · intro h
    have hp := List.find?_some (p := fun e => decide (key e = k)) h
    exact ⟨List.mem_of_find?_eq_some h, of_decide_eq_true hp⟩
  · intro h
    induction l with
    | nil => exact absurd h.1 (List.not_mem_nil a)
    | cons x xs ih =>
      rw [List.map_cons, List.nodup_cons] at hnd
      by_cases hx : key x = k
      · have hd : decide (key x = k) = true := decide_eq_true hx
        simp only [List.find?_cons, hd]
        rcases List.mem_cons.mp h.1 with hax | hax
        · rw [hax]
        · exfalso
          apply hnd.1
          rw [hx, ← h.2]
          exact List.mem_map_of_mem key hax
      · have hd : decide (key x = k) = false := decide_eq_false hx
        simp only [List.find?_cons, hd]
        rcases List.mem_cons.mp h.1 with hax | hax
        · rw [hax] at h
          exact absurd h.2 hx
        · exact ih hnd.2 ⟨hax, h.2⟩

theorem find_key_perm {α : Type} (key : α → Int) (k : Int) (l l2 : List α)
    (hnd : (l.map key).Nodup) (hp : l2.Perm l) :
    l2.find? (fun e => decide (key e = k)) = l.find? (fun e => decide (key e = k)) := by
  have hnd2 : (l2.map key).Nodup := ((hp.map key).nodup_iff).mpr hnd
  apply Option.ext
  intro a
  rw [Option.mem_def, Option.mem_def, find_key_eq_some_iff key k l hnd a,
    find_key_eq_some_iff key k l2 hnd2 a, hp.mem_iff]

/-- C24: in every protocol table and in the TLV table of the big parser no two entries have
the same key (on either byte order), so for every key the lookup by key equality gives the
same result on every permutation of the entries of the table, and every entry is the one its
key selects (first match and any match coincide). -/
theorem big_parser_keys_distinct (le : Bool) :
    (∀ t ∈ proto_tables le, (t.2.map (fun e => e.value)).Nodup)
      ∧ (∀ t ∈ tlv_tables, (t.2.map (fun e => e.type)).Nodup)
      ∧ (∀ t ∈ proto_tables le, ∀ table2 : List panda_proto_table_entry, table2.Perm t.2 →
          ∀ key : Int, lookup_node key table2 = lookup_node key t.2)
      ∧ (∀ t ∈ tlv_tables, ∀ table2 : List panda_proto_tlv_table_entry, table2.Perm t.2 →
          ∀ type : Int, lookup_tlv_node type table2 = lookup_tlv_node type t.2)
      ∧ (∀ t ∈ proto_tables le, ∀ e ∈ t.2, lookup_node e.value t.2 = some e.node)
      ∧ (∀ t ∈ tlv_tables, ∀ e ∈ t.2, lookup_tlv_node e.type t.2 = some e.node) := by
  have h1 : ∀ t ∈ proto_tables le, (t.2.map (fun e => e.value)).Nodup := by
    cases le <;> decide
  have h2 : ∀ t ∈ tlv_tables, (t.2.map (fun e => e.type)).Nodup := by decide
  refine ⟨h1, h2, ?_, ?_, ?_, ?_⟩
  · intro t ht table2 hp key
    unfold lookup_node
    rw [find_key_perm (fun e : panda_proto_table_entry => e.value) key t.2 table2 (h1 t ht) hp]
  · intro t ht table2 hp type
    unfold lookup_tlv_node
    rw [find_key_perm (fun e : panda_proto_tlv_table_entry => e.type) type t.2 table2
      (h2 t ht) hp]
  · intro t ht e he
    unfold lookup_node
    rw [(find_key_eq_some_iff (fun e : panda_proto_table_entry => e.value) e.value t.2
      (h1 t ht) e).mpr ⟨he, rfl⟩]
    rfl
  · intro t ht e he
    unfold lookup_tlv_node
    rw [(find_key_eq_some_iff (fun e : panda_proto_tlv_table_entry => e.type) e.type t.2
      (h2 t ht) e).mpr ⟨he, rfl⟩]
    rfl

/-- C26: in `ipv6_table` the entry that selects `icmpv6_node` has the key `IPPROTO_ICMP` (1)
and no entry has the key 58 (`IPPROTO_ICMPV6`): from `ipv6_node`, `ipv6_eh_node` and
`ipv6_frag_node` the next-header value 58 misses the table while 1 selects `icmpv6_node`; in
`ipv4_table` the key 1 selects `icmpv4_node`; the keys common to `ipv4_table` and `ipv6_table`
are TCP, UDP, SCTP, DCCP, GRE, ICMP, IGMP and MPLS, and each of them other than ICMP selects
the same node in both tables. -/
theorem ipv6_table_icmp_key (le : Bool) :
    IPPROTO_ICMP = 1
      ∧ ({ value := IPPROTO_ICMP, node := parse_node.icmpv6_node } : panda_proto_table_entry)
          ∈ ipv6_table
      ∧ (∀ e ∈ ipv6_table, e.node = parse_node.icmpv6_node → e.value = IPPROTO_ICMP)
      ∧ (∀ e ∈ ipv6_table, e.value ≠ 58)
      ∧ lookup_node 58 ipv6_table = none
      ∧ lookup_node 1 ipv6_table = some parse_node.icmpv6_node
      ∧ (∀ n ∈ [parse_node.ipv6_node, parse_node.ipv6_eh_node, parse_node.ipv6_frag_node],
          next_node le n 58 = none ∧ next_node le n 1 = some parse_node.icmpv6_node)
      ∧ lookup_node 1 ipv4_table = some parse_node.icmpv4_node
      ∧ (ipv4_table.map (fun e => e.value)).filter
            (fun k => decide (k ∈ ipv6_table.map (fun e => e.value)))
          = [IPPROTO_TCP, IPPROTO_UDP, IPPROTO_SCTP, IPPROTO_DCCP, IPPROTO_GRE, IPPROTO_ICMP,
              IPPROTO_IGMP, IPPROTO_MPLS]
      ∧ (∀ key ∈ [IPPROTO_TCP, IPPROTO_UDP, IPPROTO_SCTP, IPPROTO_DCCP, IPPROTO_GRE,
            IPPROTO_IGMP, IPPROTO_MPLS],
          (lookup_node key ipv4_table).isSome = true
            ∧ lookup_node key ipv4_table = lookup_node key ipv6_table) := by
  cases le <;> decide

end Panda
